import Mathlib

/-!
Shallow embedding of the valuation analytics module
(`app/services/service_valuation.py`) of the richslow repository, together
with theorems settling the claims about beta estimation, WACC computation and
the valuation suite aggregator.

Modelling conventions:
* pandas DataFrame rows fetched from the external provider are association
  lists from column name to an abstract `FieldVal`;
* machine floats are modelled as exact rationals `ℚ`.  The two volatility
  fields of `BetaMetrics` are `np.std(returns) * np.sqrt(252)` in the source,
  an irrational number; the embedding stores their squares
  (`population variance * 252`), which is faithful because `x ↦ x ^ 2` is
  injective on the nonnegative reals, so every equality or inequality between
  volatilities is equivalent to the same statement between their squares.
  The same convention is used for the Pearson correlation field;
* Python exceptions are the inductive `PyErr`; `raise Exception(msg) from e`
  becomes the constructor `PyErr.exception msg e`; fallible functions return
  `Except PyErr _`;
* the external fetches performed by `vnstock` (`Quote.history`,
  `Finance.ratio`, `Finance.balance_sheet`) are parameters of type
  `Except PyErr _` describing the outcome of each call.
-/

namespace RichSlow

/-- Abstract value stored in one cell of a fetched data row.
`num x` is any value `float(...)` converts to `x` (numbers, numeric strings,
booleans); `nan` is a float NaN; `null` is Python `None`; `nonNumeric` is a
(truthy) value on which `float(...)` raises `ValueError`/`TypeError`. -/
inductive FieldVal where
  | num (x : ℚ)
  | nan
  | null
  | nonNumeric
  deriving DecidableEq, Repr

/-- One row of a fetched DataFrame: column name to value. -/
abbrev Row := List (String × FieldVal)

/-- `_safe_get(data, key, default=None)` on a row: a missing key gives the
default `None`, and a present value that is NaN or `None` also gives `None`
(`pd.isna` is true on both). -/
def safeGet (row : Row) (key : String) : Option FieldVal :=
  match List.lookup key row with
  | none => none
  | some FieldVal.nan => none
  | some FieldVal.null => none
  | some v => some v

/-- `_safe_get_float(data, key, default)` with a numeric default: missing,
NaN, `None` and non-numeric values all fall back to `default`; a numeric
value is returned as a float. -/
def safeGetFloat (row : Row) (key : String) (default : ℚ) : ℚ :=
  match List.lookup key row with
  | none => default
  | some (FieldVal.num x) => x
  | some FieldVal.nan => default
  | some FieldVal.null => default
  | some FieldVal.nonNumeric => default

/-- `_safe_get_float(data, key, None)` as used by the valuation suite: the
default is `None`, so the result is an optional float. -/
def safeGetFloatOpt (row : Row) (key : String) : Option ℚ :=
  match List.lookup key row with
  | none => none
  | some (FieldVal.num x) => some x
  | some FieldVal.nan => none
  | some FieldVal.null => none
  | some FieldVal.nonNumeric => none

/-- Python truthiness of an optional cell value (`None`, `0` and `0.0` are
falsy; NaN is truthy; `nonNumeric` abstracts a truthy non-numeric value). -/
def pyTruthy : Option FieldVal → Bool
  | none => false
  | some (FieldVal.num x) => decide (x ≠ 0)
  | some FieldVal.nan => true
  | some FieldVal.null => false
  | some FieldVal.nonNumeric => true

/-- Python `int(x)` on a float: truncation toward zero. -/
def pyInt (x : ℚ) : ℤ := if 0 ≤ x then ⌊x⌋ else ⌈x⌉

/-- Python exceptions, as far as the valuation module distinguishes them.
`exception msg cause` is `raise Exception(msg) from cause`. -/
inductive PyErr where
  | valueError (msg : String)
  | providerError (msg : String)
  | exception (msg : String) (cause : PyErr)
  deriving DecidableEq, Repr

/-- The (outer) class of the exception, which is all a caller catching by
type can observe. -/
def PyErr.kind : PyErr → String
  | PyErr.valueError _ => "ValueError"
  | PyErr.providerError _ => "ProviderError"
  | PyErr.exception _ _ => "Exception"

/-- Kind of the error of a failed computation (`"ok"` when it succeeded). -/
def errKind {α : Type} : Except PyErr α → String
  | Except.ok _ => "ok"
  | Except.error e => e.kind

/- ### Price series and data alignment -/

/-- A fetched daily price history: list of `(time, close)` rows. -/
abbrev PriceSeries := List (ℕ × ℚ)

/-- One row of the merged stock/market frame. -/
structure AlignedRow where
  time : ℕ
  stock_close : ℚ
  market_close : ℚ
  deriving DecidableEq, Repr

/-- `stock[["time","close"]].merge(market[...], on="time", how="inner")`:
every pair of rows with equal time produces one merged row, in left-frame
order. -/
def innerMergeOnTime (stock market : PriceSeries) : List AlignedRow :=
  stock.flatMap fun p =>
    market.filterMap fun q =>
      if q.1 = p.1 then some ⟨p.1, p.2, q.2⟩ else none

/-- `.sort_values("time")`: sort the merged rows by time ascending. -/
def sortByTime (rows : List AlignedRow) : List AlignedRow :=
  List.insertionSort (fun a b => a.time ≤ b.time) rows

/-- The full Data Alignment step of `calculate_beta` (inner merge on the
`time` column, then sort by time). -/
def alignSeries (stock market : PriceSeries) : List AlignedRow :=
  sortByTime (innerMergeOnTime stock market)

/-- A row of the aligned frame after `pct_change` and `dropna`. -/
structure ReturnRow where
  time : ℕ
  stock_ret : ℚ
  market_ret : ℚ
  deriving DecidableEq, Repr

/-- `pct_change()` on both close columns followed by
`dropna(subset=["stock_ret","market_ret"])`: each row after the first is
paired with its predecessor and turned into fractional returns; the first
row (whose `pct_change` is NaN) is dropped. -/
def returnRows (l : List AlignedRow) : List ReturnRow :=
  (l.zip l.tail).map fun pc =>
    ⟨pc.2.time, pc.2.stock_close / pc.1.stock_close - 1,
      pc.2.market_close / pc.1.market_close - 1⟩

/-- The dates common to the two fetched series (the join keys of the inner
merge).  When each series lists each date once, its length is the number of
common trading dates. -/
def commonDates (stock market : PriceSeries) : List ℕ :=
  (stock.map Prod.fst).filter fun t => t ∈ market.map Prod.fst

/- ### Statistics used by the beta estimator -/

/-- `np.mean`. -/
def listMean (l : List ℚ) : ℚ := l.sum / l.length

/-- `np.std(l) ** 2`: population variance (`ddof = 0`, numpy default). -/
def listPopVar (l : List ℚ) : ℚ :=
  ((l.map fun x => (x - listMean l) ^ 2).sum) / l.length

/-- Off-diagonal entry of `np.cov(x, y)`: sample covariance
(`ddof = 1`, numpy default for `cov`). -/
def sampleCov (x y : List ℚ) : ℚ :=
  (((x.zip y).map fun p => (p.1 - listMean x) * (p.2 - listMean y)).sum) /
    ((x.length : ℚ) - 1)

/-- Diagonal entry of `np.cov`: sample variance (`ddof = 1`). -/
def sampleVar (x : List ℚ) : ℚ := sampleCov x x

/-- Square of `np.corrcoef(x, y)[0, 1]` (kept squared to stay rational). -/
def corrSq (x y : List ℚ) : ℚ := sampleCov x y ^ 2 / (sampleVar x * sampleVar y)

/-- Slope of the degree-1 least-squares fit `np.polyfit(m, s, 1)` of `s`
on `m` (closed form of the unique least-squares line when `Var m ≠ 0`). -/
def olsSlope (m s : List ℚ) : ℚ := sampleCov s m / sampleVar m

/-- Intercept of the same least-squares fit. -/
def olsIntercept (m s : List ℚ) : ℚ := listMean s - olsSlope m s * listMean m

/-- `ss_res`: sum of squared residuals of the fit. -/
def ssRes (m s : List ℚ) : ℚ :=
  (((m.zip s).map fun p =>
    (p.2 - (olsSlope m s * p.1 + olsIntercept m s)) ^ 2).sum)

/-- `ss_tot`: total sum of squares of `s` about its mean. -/
def ssTot (s : List ℚ) : ℚ := ((s.map fun x => (x - listMean s) ^ 2).sum)

/-- `r_squared = 1 - ss_res/ss_tot if ss_tot != 0 else 0`. -/
def rSquared (m s : List ℚ) : ℚ :=
  if ssTot s ≠ 0 then 1 - ssRes m s / ssTot s else 0

/- ### Beta estimator -/

/-- `BetaMetrics` (schema `app/schemas/schema_valuation.py`).  The
`correlation` and two `volatility_*` float fields of the schema are stored
squared (see the module comment); everything else is verbatim. -/
structure BetaMetrics where
  ticker : String
  beta : ℚ
  correlation_sq : ℚ
  r_squared : ℚ
  volatility_stock_sq : ℚ
  volatility_market_sq : ℚ
  data_points_used : ℕ
  start_date : String
  end_date : String
  deriving DecidableEq, Repr

/-- Body of the `try` block of `calculate_beta`: fetch both histories,
align, validate, compute the regression statistics.
`np.sqrt(252)` squared is the literal `252`. -/
def calculateBetaCore (ticker : String)
    (stockFetch marketFetch : Except PyErr PriceSeries)
    (start_date end_date : String) : Except PyErr BetaMetrics :=
  match stockFetch with
  | Except.error e => Except.error e
  | Except.ok stock_data =>
    match marketFetch with
    | Except.error e => Except.error e
    | Except.ok market_data =>
      let aligned := alignSeries stock_data market_data
      if aligned.length < 30 then
        Except.error (PyErr.valueError
          ("Insufficient aligned data points: " ++ toString aligned.length ++
            ". Need minimum 30 trading days for meaningful beta calculation."))
      else
        let returns := returnRows aligned
        if returns.length < 30 then
          Except.error (PyErr.valueError
            ("Insufficient valid return observations: " ++
              toString returns.length))
        else
          let stock_returns := returns.map ReturnRow.stock_ret
          let market_returns := returns.map ReturnRow.market_ret
          Except.ok
            { ticker := ticker
              beta := sampleCov stock_returns market_returns /
                sampleVar market_returns
              correlation_sq := corrSq stock_returns market_returns
              r_squared := rSquared market_returns stock_returns
              volatility_stock_sq := listPopVar stock_returns * 252
              volatility_market_sq := listPopVar market_returns * 252
              data_points_used := returns.length
              start_date := start_date
              end_date := end_date }

/-- `calculate_beta`: the core wrapped by
`except Exception as e: raise Exception(f"Beta calculation failed for {ticker}") from e`. -/
def calculate_beta (ticker : String)
    (stockFetch marketFetch : Except PyErr PriceSeries)
    (start_date end_date : String) : Except PyErr BetaMetrics :=
  match calculateBetaCore ticker stockFetch marketFetch start_date end_date with
  | Except.ok r => Except.ok r
  | Except.error e =>
    Except.error (PyErr.exception ("Beta calculation failed for " ++ ticker) e)

/- ### WACC estimator -/

/-- Vietnamese market constants (module top level of the source). -/
def VIETNAM_CORPORATE_TAX_RATE : ℚ := 0.20

def VIETNAM_RISK_FREE_RATE : ℚ := 0.035

def VIETNAM_MARKET_RISK_PREMIUM : ℚ := 0.05

def DEFAULT_CREDIT_SPREAD : ℚ := 0.025

/-- Python `x or default` on an optional float parameter: falls back to the
default when the argument is `None` and also when it is `0.0` (zero is
falsy). -/
def orDefault (x : Option ℚ) (default : ℚ) : ℚ :=
  match x with
  | none => default
  | some v => if v = 0 then default else v

/-- `WACCMetrics` (schema `app/schemas/schema_valuation.py`), floats as
exact rationals. -/
structure WACCMetrics where
  ticker : String
  wacc : ℚ
  cost_of_equity : ℚ
  cost_of_debt : ℚ
  market_value_equity : ℚ
  market_value_debt : ℚ
  total_value : ℚ
  equity_weight : ℚ
  debt_weight : ℚ
  tax_rate : ℚ
  risk_free_rate : ℚ
  market_risk_premium : ℚ
  beta : ℚ
  deriving DecidableEq, Repr

/-- Outcomes of the external fetches `calculate_wacc` and
`calculate_valuation_suite` perform: the two `Quote.history` calls and the
`Finance.ratio` / `Finance.balance_sheet` calls (each financial frame is the
list of its rows, latest first, `iloc[0]` being the head). -/
structure WaccEnv where
  stockFetch : Except PyErr PriceSeries
  marketFetch : Except PyErr PriceSeries
  ratioFetch : Except PyErr (List Row)
  balanceFetch : Except PyErr (List Row)

/-- Market capitalization extraction of `calculate_wacc`: try the
`market_cap` field, and if it read as `0` fall back to the alternative
column name. -/
def resolvedMarketCap (latest_ratio : Row) : ℚ :=
  let market_cap := safeGetFloat latest_ratio "market_cap" 0
  if market_cap = 0 then
    safeGetFloat latest_ratio "Market Capital (Bn. VND)" 0
  else market_cap

/-- Total debt of `calculate_wacc`: short-term plus long-term borrowings of
the latest balance-sheet row, missing or invalid components reading as `0`. -/
def resolvedTotalDebt (latest_balance : Row) : ℚ :=
  safeGetFloat latest_balance "short_term_borrowings" 0 +
    safeGetFloat latest_balance "long_term_borrowings" 0

/-- The arithmetic tail of `calculate_wacc` once the market cap, total debt
and beta are known and the resolved market assumptions are fixed: weights,
CAPM cost of equity, after-tax cost of debt and the blended WACC. -/
def mkWacc (ticker : String) (rf mrp spread market_cap total_debt beta : ℚ) :
    WACCMetrics :=
  let total_value := market_cap + total_debt
  let equity_weight := market_cap / total_value
  let debt_weight := total_debt / total_value
  let cost_of_equity := rf + beta * mrp
  let after_tax_cost_of_debt := (rf + spread) * (1 - VIETNAM_CORPORATE_TAX_RATE)
  { ticker := ticker
    wacc := equity_weight * cost_of_equity + debt_weight * after_tax_cost_of_debt
    cost_of_equity := cost_of_equity
    cost_of_debt := after_tax_cost_of_debt
    market_value_equity := market_cap
    market_value_debt := total_debt
    total_value := total_value
    equity_weight := equity_weight
    debt_weight := debt_weight
    tax_rate := VIETNAM_CORPORATE_TAX_RATE
    risk_free_rate := rf
    market_risk_premium := mrp
    beta := beta }

/-- Body of the `try` block of `calculate_wacc`, in the source's order:
resolve assumptions, fetch the financial frames, reject empty frames, read
market cap (with field-name fallback) and total debt from the latest rows,
reject a zero firm value, run the nested beta calculation, combine. -/
def calculateWaccCore (ticker : String) (env : WaccEnv)
    (start_date end_date : String)
    (risk_free_rate market_risk_premium credit_spread : Option ℚ) :
    Except PyErr WACCMetrics :=
  let rf := orDefault risk_free_rate VIETNAM_RISK_FREE_RATE
  let mrp := orDefault market_risk_premium VIETNAM_MARKET_RISK_PREMIUM
  let spread := orDefault credit_spread DEFAULT_CREDIT_SPREAD
  match env.ratioFetch with
  | Except.error e => Except.error e
  | Except.ok ratio_data =>
    match env.balanceFetch with
    | Except.error e => Except.error e
    | Except.ok balance_data =>
      match ratio_data, balance_data with
      | latest_ratio :: _, latest_balance :: _ =>
        let market_cap := resolvedMarketCap latest_ratio
        if market_cap = 0 then
          Except.error (PyErr.valueError
            ("Market capitalization not available for " ++ ticker))
        else
          let total_debt := resolvedTotalDebt latest_balance
          let total_value := market_cap + total_debt
          if total_value = 0 then
            Except.error (PyErr.valueError
              ("Cannot determine firm value for " ++ ticker))
          else
            match calculate_beta ticker env.stockFetch env.marketFetch
                start_date end_date with
            | Except.error e => Except.error e
            | Except.ok beta_result =>
              Except.ok
                (mkWacc ticker rf mrp spread market_cap total_debt
                  beta_result.beta)
      | _, _ =>
        Except.error (PyErr.valueError
          ("No financial data available for " ++ ticker))

/-- `calculate_wacc`: the core wrapped by
`except Exception as e: raise Exception(f"WACC calculation failed for {ticker}") from e`. -/
def calculate_wacc (ticker : String) (env : WaccEnv)
    (start_date end_date : String)
    (risk_free_rate market_risk_premium credit_spread : Option ℚ) :
    Except PyErr WACCMetrics :=
  match calculateWaccCore ticker env start_date end_date risk_free_rate
      market_risk_premium credit_spread with
  | Except.ok r => Except.ok r
  | Except.error e =>
    Except.error (PyErr.exception ("WACC calculation failed for " ++ ticker) e)

/- ### Valuation suite aggregator -/

/-- `ValuationMetrics` (schema `app/schemas/schema_valuation.py`);
correlation and volatilities stored squared as in `BetaMetrics`. -/
structure ValuationMetrics where
  ticker : String
  year_report : Option ℤ
  beta : ℚ
  correlation_sq : ℚ
  r_squared : ℚ
  stock_volatility_sq : ℚ
  market_volatility_sq : ℚ
  wacc : ℚ
  cost_of_equity : ℚ
  cost_of_debt : ℚ
  market_cap : ℚ
  total_debt : ℚ
  enterprise_value : ℚ
  equity_weight : ℚ
  debt_weight : ℚ
  financial_leverage : Option ℚ
  interest_coverage : Option ℚ
  risk_free_rate : ℚ
  market_risk_premium : ℚ
  tax_rate : ℚ
  data_points_used : ℕ
  start_date : String
  end_date : String
  deriving DecidableEq, Repr

/-- The `year_report` extraction of the suite loop:
`_safe_get(row, "yearReport")`, falling back to the `year_report` column when
falsy, then `int(year_report) if year_report else None` — which raises
`ValueError` when the value is truthy but not numeric. -/
def yearReportVal (row : Row) : Except PyErr (Option ℤ) :=
  let yr0 := safeGet row "yearReport"
  let yr := if pyTruthy yr0 then yr0 else safeGet row "year_report"
  if pyTruthy yr then
    match yr with
    | some (FieldVal.num x) => Except.ok (some (pyInt x))
    | _ => Except.error (PyErr.valueError "invalid literal for int()")
  else Except.ok none

/-- One `ValuationMetrics` record of the suite loop: the period-invariant
beta/WACC figures attached to the period's own ratio row. -/
def mkValuationRecord (ticker start_date end_date : String)
    (bm : BetaMetrics) (wm : WACCMetrics) (yr : Option ℤ) (row : Row) :
    ValuationMetrics :=
  { ticker := ticker
    year_report := yr
    beta := bm.beta
    correlation_sq := bm.correlation_sq
    r_squared := bm.r_squared
    stock_volatility_sq := bm.volatility_stock_sq
    market_volatility_sq := bm.volatility_market_sq
    wacc := wm.wacc
    cost_of_equity := wm.cost_of_equity
    cost_of_debt := wm.cost_of_debt
    market_cap := wm.market_value_equity
    total_debt := wm.market_value_debt
    enterprise_value := wm.market_value_equity + wm.market_value_debt
    equity_weight := wm.equity_weight
    debt_weight := wm.debt_weight
    financial_leverage := safeGetFloatOpt row "debt_to_equity"
    interest_coverage := safeGetFloatOpt row "interest_coverage_ratio"
    risk_free_rate := wm.risk_free_rate
    market_risk_premium := wm.market_risk_premium
    tax_rate := wm.tax_rate
    data_points_used := bm.data_points_used
    start_date := start_date
    end_date := end_date }

/-- The `for _idx, row in ratio_data.iterrows()` loop of the suite: build
one record per row in order, aborting at the first row whose year-report
conversion raises. -/
def suiteRows (ticker start_date end_date : String)
    (bm : BetaMetrics) (wm : WACCMetrics) :
    List Row → Except PyErr (List ValuationMetrics)
  | [] => Except.ok []
  | row :: rest =>
    match yearReportVal row with
    | Except.error e => Except.error e
    | Except.ok yr =>
      match suiteRows ticker start_date end_date bm wm rest with
      | Except.error e => Except.error e
      | Except.ok tail =>
        Except.ok (mkValuationRecord ticker start_date end_date bm wm yr row
          :: tail)

/-- Body of the `try` block of `calculate_valuation_suite`: one beta
computation, one WACC computation (no overrides), one ratio fetch, then the
per-period loop. -/
def calculateValuationSuiteCore (ticker : String) (env : WaccEnv)
    (start_date end_date : String) :
    Except PyErr (List ValuationMetrics) :=
  match calculate_beta ticker env.stockFetch env.marketFetch
      start_date end_date with
  | Except.error e => Except.error e
  | Except.ok beta_metrics =>
    match calculate_wacc ticker env start_date end_date none none none with
    | Except.error e => Except.error e
    | Except.ok wacc_metrics =>
      match env.ratioFetch with
      | Except.error e => Except.error e
      | Except.ok ratio_data =>
        suiteRows ticker start_date end_date beta_metrics wacc_metrics
          ratio_data

/-- `calculate_valuation_suite`: the core wrapped by the generic
`raise Exception(f"Valuation suite calculation failed for {ticker}") from e`. -/
def calculate_valuation_suite (ticker : String) (env : WaccEnv)
    (start_date end_date : String) :
    Except PyErr (List ValuationMetrics) :=
  match calculateValuationSuiteCore ticker env start_date end_date with
  | Except.ok r => Except.ok r
  | Except.error e =>
    Except.error (PyErr.exception
      ("Valuation suite calculation failed for " ++ ticker) e)


/- ### Auxiliary definitions for deciding concrete instances -/

instance exceptDecEq {e a : Type} [DecidableEq e] [DecidableEq a] :
    DecidableEq (Except e a) := fun x y =>
  match x, y with
  | Except.ok u, Except.ok v =>
    if h : u = v then isTrue (by rw [h])
    else isFalse (fun hc => h (by cases hc; rfl))
  | Except.ok _, Except.error _ => isFalse (fun hc => by cases hc)
  | Except.error _, Except.ok _ => isFalse (fun hc => by cases hc)
  | Except.error u, Except.error v =>
    if h : u = v then isTrue (by rw [h])
    else isFalse (fun hc => h (by cases hc; rfl))

/-- The spec's "sample standard deviation of daily returns", squared: the
variance with Bessel's correction (denominator `n - 1`).  This definition
follows the spec's words, for comparison against the source's
`np.std` (population, denominator `n`) in `listPopVar`. -/
def specSampleVariance (l : List ℚ) : ℚ :=
  ((l.map fun x => (x - listMean l) ^ 2).sum) / ((l.length : ℚ) - 1)

/-- A balance-sheet cell that is missing, NaN, `None` or non-numeric —
everything `_safe_get_float` maps to its default. -/
def invalidField : Option FieldVal → Prop
  | some (FieldVal.num _) => False
  | _ => True

/- ### Example inputs -/

/-- Example fetched stock history: 31 trading dates, daily returns alternating +5/4, -5/8 (exactly 1.25 times the market returns). -/
def exStock31 : PriceSeries :=
  [(0, 1), (1, (9 : ℚ)/4), (2, (27 : ℚ)/32), (3, (243 : ℚ)/128), (4, (729 : ℚ)/1024), (5, (6561 : ℚ)/4096), (6, (19683 : ℚ)/32768), (7, (177147 : ℚ)/131072), (8, (531441 : ℚ)/1048576), (9, (4782969 : ℚ)/4194304), (10, (14348907 : ℚ)/33554432), (11, (129140163 : ℚ)/134217728), (12, (387420489 : ℚ)/1073741824), (13, (3486784401 : ℚ)/4294967296), (14, (10460353203 : ℚ)/34359738368), (15, (94143178827 : ℚ)/137438953472), (16, (282429536481 : ℚ)/1099511627776), (17, (2541865828329 : ℚ)/4398046511104), (18, (7625597484987 : ℚ)/35184372088832), (19, (68630377364883 : ℚ)/140737488355328), (20, (205891132094649 : ℚ)/1125899906842624), (21, (1853020188851841 : ℚ)/4503599627370496), (22, (5559060566555523 : ℚ)/36028797018963968), (23, (50031545098999707 : ℚ)/144115188075855872), (24, (150094635296999121 : ℚ)/1152921504606846976), (25, (1350851717672992089 : ℚ)/4611686018427387904), (26, (4052555153018976267 : ℚ)/36893488147419103232), (27, (36472996377170786403 : ℚ)/147573952589676412928), (28, (109418989131512359209 : ℚ)/1180591620717411303424), (29, (984770902183611232881 : ℚ)/4722366482869645213696), (30, (2954312706550833698643 : ℚ)/37778931862957161709568)]

/-- Example fetched market history: 31 trading dates, daily returns alternating +1, -1/2. -/
def exMarket31 : PriceSeries :=
  [(0, 1), (1, 2), (2, 1), (3, 2), (4, 1), (5, 2), (6, 1), (7, 2), (8, 1), (9, 2), (10, 1), (11, 2), (12, 1), (13, 2), (14, 1), (15, 2), (16, 1), (17, 2), (18, 1), (19, 2), (20, 1), (21, 2), (22, 1), (23, 2), (24, 1), (25, 2), (26, 1), (27, 2), (28, 1), (29, 2), (30, 1)]

/-- The first 30 dates of `exStock31` (one aligned date below the 31 needed for 30 return observations). -/
def exStock30 : PriceSeries :=
  [(0, 1), (1, (9 : ℚ)/4), (2, (27 : ℚ)/32), (3, (243 : ℚ)/128), (4, (729 : ℚ)/1024), (5, (6561 : ℚ)/4096), (6, (19683 : ℚ)/32768), (7, (177147 : ℚ)/131072), (8, (531441 : ℚ)/1048576), (9, (4782969 : ℚ)/4194304), (10, (14348907 : ℚ)/33554432), (11, (129140163 : ℚ)/134217728), (12, (387420489 : ℚ)/1073741824), (13, (3486784401 : ℚ)/4294967296), (14, (10460353203 : ℚ)/34359738368), (15, (94143178827 : ℚ)/137438953472), (16, (282429536481 : ℚ)/1099511627776), (17, (2541865828329 : ℚ)/4398046511104), (18, (7625597484987 : ℚ)/35184372088832), (19, (68630377364883 : ℚ)/140737488355328), (20, (205891132094649 : ℚ)/1125899906842624), (21, (1853020188851841 : ℚ)/4503599627370496), (22, (5559060566555523 : ℚ)/36028797018963968), (23, (50031545098999707 : ℚ)/144115188075855872), (24, (150094635296999121 : ℚ)/1152921504606846976), (25, (1350851717672992089 : ℚ)/4611686018427387904), (26, (4052555153018976267 : ℚ)/36893488147419103232), (27, (36472996377170786403 : ℚ)/147573952589676412928), (28, (109418989131512359209 : ℚ)/1180591620717411303424), (29, (984770902183611232881 : ℚ)/4722366482869645213696)]

/-- The first 30 dates of `exMarket31`. -/
def exMarket30 : PriceSeries :=
  [(0, 1), (1, 2), (2, 1), (3, 2), (4, 1), (5, 2), (6, 1), (7, 2), (8, 1), (9, 2), (10, 1), (11, 2), (12, 1), (13, 2), (14, 1), (15, 2), (16, 1), (17, 2), (18, 1), (19, 2), (20, 1), (21, 2), (22, 1), (23, 2), (24, 1), (25, 2), (26, 1), (27, 2), (28, 1), (29, 2)]

/-- The aligned frame `alignSeries exStock31 exMarket31`, written out. -/
def alignedLit : List AlignedRow :=
  [⟨0, 1, 1⟩, ⟨1, (9 : ℚ)/4, 2⟩, ⟨2, (27 : ℚ)/32, 1⟩, ⟨3, (243 : ℚ)/128, 2⟩, ⟨4, (729 : ℚ)/1024, 1⟩, ⟨5, (6561 : ℚ)/4096, 2⟩, ⟨6, (19683 : ℚ)/32768, 1⟩, ⟨7, (177147 : ℚ)/131072, 2⟩, ⟨8, (531441 : ℚ)/1048576, 1⟩, ⟨9, (4782969 : ℚ)/4194304, 2⟩, ⟨10, (14348907 : ℚ)/33554432, 1⟩, ⟨11, (129140163 : ℚ)/134217728, 2⟩, ⟨12, (387420489 : ℚ)/1073741824, 1⟩, ⟨13, (3486784401 : ℚ)/4294967296, 2⟩, ⟨14, (10460353203 : ℚ)/34359738368, 1⟩, ⟨15, (94143178827 : ℚ)/137438953472, 2⟩, ⟨16, (282429536481 : ℚ)/1099511627776, 1⟩, ⟨17, (2541865828329 : ℚ)/4398046511104, 2⟩, ⟨18, (7625597484987 : ℚ)/35184372088832, 1⟩, ⟨19, (68630377364883 : ℚ)/140737488355328, 2⟩, ⟨20, (205891132094649 : ℚ)/1125899906842624, 1⟩, ⟨21, (1853020188851841 : ℚ)/4503599627370496, 2⟩, ⟨22, (5559060566555523 : ℚ)/36028797018963968, 1⟩, ⟨23, (50031545098999707 : ℚ)/144115188075855872, 2⟩, ⟨24, (150094635296999121 : ℚ)/1152921504606846976, 1⟩, ⟨25, (1350851717672992089 : ℚ)/4611686018427387904, 2⟩, ⟨26, (4052555153018976267 : ℚ)/36893488147419103232, 1⟩, ⟨27, (36472996377170786403 : ℚ)/147573952589676412928, 2⟩, ⟨28, (109418989131512359209 : ℚ)/1180591620717411303424, 1⟩, ⟨29, (984770902183611232881 : ℚ)/4722366482869645213696, 2⟩, ⟨30, (2954312706550833698643 : ℚ)/37778931862957161709568, 1⟩]

/-- The return rows of `alignedLit` after `pct_change` and `dropna`. -/
def returnsLit : List ReturnRow :=
  [⟨1, (5 : ℚ)/4, 1⟩, ⟨2, (-5 : ℚ)/8, (-1 : ℚ)/2⟩, ⟨3, (5 : ℚ)/4, 1⟩, ⟨4, (-5 : ℚ)/8, (-1 : ℚ)/2⟩, ⟨5, (5 : ℚ)/4, 1⟩, ⟨6, (-5 : ℚ)/8, (-1 : ℚ)/2⟩, ⟨7, (5 : ℚ)/4, 1⟩, ⟨8, (-5 : ℚ)/8, (-1 : ℚ)/2⟩, ⟨9, (5 : ℚ)/4, 1⟩, ⟨10, (-5 : ℚ)/8, (-1 : ℚ)/2⟩, ⟨11, (5 : ℚ)/4, 1⟩, ⟨12, (-5 : ℚ)/8, (-1 : ℚ)/2⟩, ⟨13, (5 : ℚ)/4, 1⟩, ⟨14, (-5 : ℚ)/8, (-1 : ℚ)/2⟩, ⟨15, (5 : ℚ)/4, 1⟩, ⟨16, (-5 : ℚ)/8, (-1 : ℚ)/2⟩, ⟨17, (5 : ℚ)/4, 1⟩, ⟨18, (-5 : ℚ)/8, (-1 : ℚ)/2⟩, ⟨19, (5 : ℚ)/4, 1⟩, ⟨20, (-5 : ℚ)/8, (-1 : ℚ)/2⟩, ⟨21, (5 : ℚ)/4, 1⟩, ⟨22, (-5 : ℚ)/8, (-1 : ℚ)/2⟩, ⟨23, (5 : ℚ)/4, 1⟩, ⟨24, (-5 : ℚ)/8, (-1 : ℚ)/2⟩, ⟨25, (5 : ℚ)/4, 1⟩, ⟨26, (-5 : ℚ)/8, (-1 : ℚ)/2⟩, ⟨27, (5 : ℚ)/4, 1⟩, ⟨28, (-5 : ℚ)/8, (-1 : ℚ)/2⟩, ⟨29, (5 : ℚ)/4, 1⟩, ⟨30, (-5 : ℚ)/8, (-1 : ℚ)/2⟩]

/-- The stock daily returns of `returnsLit`. -/
def sretsLit : List ℚ := [(5 : ℚ)/4, (-5 : ℚ)/8, (5 : ℚ)/4, (-5 : ℚ)/8, (5 : ℚ)/4, (-5 : ℚ)/8, (5 : ℚ)/4, (-5 : ℚ)/8, (5 : ℚ)/4, (-5 : ℚ)/8, (5 : ℚ)/4, (-5 : ℚ)/8, (5 : ℚ)/4, (-5 : ℚ)/8, (5 : ℚ)/4, (-5 : ℚ)/8, (5 : ℚ)/4, (-5 : ℚ)/8, (5 : ℚ)/4, (-5 : ℚ)/8, (5 : ℚ)/4, (-5 : ℚ)/8, (5 : ℚ)/4, (-5 : ℚ)/8, (5 : ℚ)/4, (-5 : ℚ)/8, (5 : ℚ)/4, (-5 : ℚ)/8, (5 : ℚ)/4, (-5 : ℚ)/8]

/-- The market daily returns of `returnsLit`. -/
def mretsLit : List ℚ := [1, (-1 : ℚ)/2, 1, (-1 : ℚ)/2, 1, (-1 : ℚ)/2, 1, (-1 : ℚ)/2, 1, (-1 : ℚ)/2, 1, (-1 : ℚ)/2, 1, (-1 : ℚ)/2, 1, (-1 : ℚ)/2, 1, (-1 : ℚ)/2, 1, (-1 : ℚ)/2, 1, (-1 : ℚ)/2, 1, (-1 : ℚ)/2, 1, (-1 : ℚ)/2, 1, (-1 : ℚ)/2, 1, (-1 : ℚ)/2]


/-- A 5-date history (far below the 30-day minimum). -/
def exStock5 : PriceSeries := [(0, 100), (1, 101), (2, 102), (3, 103), (4, 104)]

/-- The beta metrics `calculate_beta` produces on
`exStock31` / `exMarket31`. -/
def exBetaM : BetaMetrics :=
  { ticker := "FPT"
    beta := 5/4
    correlation_sq := 1
    r_squared := 1
    volatility_stock_sq := 14175/64
    volatility_market_sq := 567/4
    data_points_used := 30
    start_date := "2023-01-01"
    end_date := "2023-12-31" }

/-- Latest ratio row: market capitalization 75 (Bn VND). -/
def exRatioRow : Row :=
  [("market_cap", FieldVal.num 75), ("yearReport", FieldVal.num 2023)]

/-- Latest balance row: short-term borrowings 25, long-term `None`. -/
def exBalanceRow : Row :=
  [("short_term_borrowings", FieldVal.num 25),
   ("long_term_borrowings", FieldVal.null)]

/-- Environment giving market cap 75, total debt 25, beta 5/4: the WACC
worked example of the spec (weights 0.75/0.25). -/
def envC3 : WaccEnv :=
  { stockFetch := Except.ok exStock31
    marketFetch := Except.ok exMarket31
    ratioFetch := Except.ok [exRatioRow]
    balanceFetch := Except.ok [exBalanceRow] }

/-- Balance row reporting negative short-term borrowings. -/
def negBalanceRow : Row := [("short_term_borrowings", FieldVal.num (-25))]

/-- Ratio row with market capitalization 50. -/
def ratioRow50 : Row := [("market_cap", FieldVal.num 50)]

/-- Environment with market cap 50 and total debt -25: firm value 25,
equity weight 2, debt weight -1. -/
def envC4 : WaccEnv :=
  { stockFetch := Except.ok exStock31
    marketFetch := Except.ok exMarket31
    ratioFetch := Except.ok [ratioRow50]
    balanceFetch := Except.ok [negBalanceRow] }

/-- Environment with market cap 50 and total debt -100: firm value -50,
which passes the `total_value == 0` check. -/
def envC7 : WaccEnv :=
  { stockFetch := Except.ok exStock31
    marketFetch := Except.ok exMarket31
    ratioFetch := Except.ok [ratioRow50]
    balanceFetch := Except.ok [[("short_term_borrowings", FieldVal.num (-100))]] }

/-- Environment with market cap 50 and total debt -50: firm value exactly 0. -/
def envC7zero : WaccEnv :=
  { stockFetch := Except.ok exStock31
    marketFetch := Except.ok exMarket31
    ratioFetch := Except.ok [ratioRow50]
    balanceFetch := Except.ok [[("short_term_borrowings", FieldVal.num (-50))]] }

/-- Balance row whose borrowings fields are a non-numeric value and absent. -/
def invalidBalanceRow : Row := [("short_term_borrowings", FieldVal.nonNumeric)]

/-- Environment whose balance sheet lacks usable borrowings fields. -/
def envC10 : WaccEnv :=
  { stockFetch := Except.ok exStock31
    marketFetch := Except.ok exMarket31
    ratioFetch := Except.ok [exRatioRow]
    balanceFetch := Except.ok [invalidBalanceRow] }

/-- Two reporting-period ratio rows for the valuation suite. -/
def c9Row1 : Row :=
  [("market_cap", FieldVal.num 75), ("yearReport", FieldVal.num 2023),
   ("debt_to_equity", FieldVal.num (1/2))]

def c9Row2 : Row :=
  [("market_cap", FieldVal.num 70), ("yearReport", FieldVal.num 2022),
   ("interest_coverage_ratio", FieldVal.num 8)]

/-- Environment for the valuation suite: two ratio periods. -/
def envC9 : WaccEnv :=
  { stockFetch := Except.ok exStock31
    marketFetch := Except.ok exMarket31
    ratioFetch := Except.ok [c9Row1, c9Row2]
    balanceFetch := Except.ok [exBalanceRow] }


/-- The WACC metrics produced on `envC3` (and `envC9`): market cap 75,
total debt 25, beta 5/4, default market assumptions. -/
def exWaccM : WACCMetrics :=
  mkWacc "FPT" (7/200) (1/20) (1/40) 75 25 (5/4)

/- ### Lemmas: data alignment -/

theorem filterMapKey_eq_nil (p : ℕ × ℚ) (m : PriceSeries)
    (h : p.1 ∉ m.map Prod.fst) :
    (m.filterMap fun q =>
      if q.1 = p.1 then some (⟨p.1, p.2, q.2⟩ : AlignedRow) else none) = [] := by
  induction m with
  | nil => rfl
  | cons q m ih =>
    simp only [List.map_cons, List.mem_cons, not_or] at h
    rw [List.filterMap_cons, if_neg (fun hq => h.1 hq.symm)]
    exact ih h.2

theorem filterMapKey_length (p : ℕ × ℚ) (m : PriceSeries)
    (hm : (m.map Prod.fst).Nodup) :
    (m.filterMap fun q =>
      if q.1 = p.1 then some (⟨p.1, p.2, q.2⟩ : AlignedRow) else none).length =
      if p.1 ∈ m.map Prod.fst then 1 else 0 := by
  induction m with
  | nil => simp
  | cons q m ih =>
    simp only [List.map_cons, List.nodup_cons] at hm
    rw [List.filterMap_cons]
    by_cases hq : q.1 = p.1
    · rw [if_pos hq, List.length_cons,
        filterMapKey_eq_nil p m (by rw [← hq]; exact hm.1)]
      simp [hq]
    · rw [if_neg hq, ih hm.2, List.map_cons]
      have hcc : p.1 ∈ q.1 :: m.map Prod.fst ↔ p.1 ∈ m.map Prod.fst := by
        constructor
        · intro hc
          rcases List.mem_cons.mp hc with h1 | h2
          · exact absurd h1.symm hq
          · exact h2
        · exact List.mem_cons_of_mem _
      by_cases hmem : p.1 ∈ m.map Prod.fst
      · rw [if_pos hmem, if_pos (hcc.mpr hmem)]
      · rw [if_neg hmem, if_neg (fun hc => hmem (hcc.mp hc))]

theorem commonDates_cons (p : ℕ × ℚ) (s m : PriceSeries) :
    commonDates (p :: s) m =
      if p.1 ∈ m.map Prod.fst then p.1 :: commonDates s m else commonDates s m := by
  rw [commonDates, List.map_cons, List.filter_cons]
  by_cases hmem : p.1 ∈ m.map Prod.fst
  · rw [if_pos (by simpa using hmem), if_pos hmem]
    rfl
  · rw [if_neg (by simpa using hmem), if_neg hmem]
    rfl

theorem length_innerMergeOnTime (s m : PriceSeries)
    (hm : (m.map Prod.fst).Nodup) :
    (innerMergeOnTime s m).length = (commonDates s m).length := by
  induction s with
  | nil => rfl
  | cons p s ih =>
    rw [innerMergeOnTime, List.flatMap_cons, List.length_append]
    rw [innerMergeOnTime] at ih
    rw [ih, filterMapKey_length p m hm, commonDates_cons]
    by_cases hmem : p.1 ∈ m.map Prod.fst
    · rw [if_pos hmem, if_pos hmem, List.length_cons]
      omega
    · rw [if_neg hmem, if_neg hmem]
      omega

theorem mem_innerMergeOnTime {row : AlignedRow} {s m : PriceSeries}
    (h : row ∈ innerMergeOnTime s m) :
    row.time ∈ s.map Prod.fst ∧ row.time ∈ m.map Prod.fst := by
  rw [innerMergeOnTime, List.mem_flatMap] at h
  obtain ⟨p, hp, hrow⟩ := h
  rw [List.mem_filterMap] at hrow
  obtain ⟨q, hq, hif⟩ := hrow
  by_cases hqe : q.1 = p.1
  · rw [if_pos hqe] at hif
    cases hif
    exact ⟨List.mem_map_of_mem Prod.fst hp,
      by rw [show p.1 = q.1 from hqe.symm] at *; exact List.mem_map_of_mem Prod.fst hq⟩
  · rw [if_neg hqe] at hif
    cases hif

theorem alignSeries_perm (s m : PriceSeries) :
    (alignSeries s m).Perm (innerMergeOnTime s m) :=
  List.perm_insertionSort _ _

theorem length_alignSeries (s m : PriceSeries)
    (hm : (m.map Prod.fst).Nodup) :
    (alignSeries s m).length = (commonDates s m).length := by
  rw [(alignSeries_perm s m).length_eq, length_innerMergeOnTime s m hm]

theorem mem_alignSeries {row : AlignedRow} {s m : PriceSeries}
    (h : row ∈ alignSeries s m) :
    row.time ∈ s.map Prod.fst ∧ row.time ∈ m.map Prod.fst :=
  mem_innerMergeOnTime ((alignSeries_perm s m).mem_iff.mp h)

theorem length_returnRows (l : List AlignedRow) :
    (returnRows l).length = l.length - 1 := by
  rw [returnRows, List.length_map, List.length_zip, List.length_tail]
  omega

theorem mem_returnRows_time {r : ReturnRow} {l : List AlignedRow}
    (h : r ∈ returnRows l) : ∃ row ∈ l, r.time = row.time := by
  rw [returnRows, List.mem_map] at h
  obtain ⟨pc, hpc, hr⟩ := h
  refine ⟨pc.2, List.mem_of_mem_tail (List.of_mem_zip hpc).2, ?_⟩
  rw [← hr]

/- ### Lemmas: beta estimator -/

theorem calculate_beta_ok_iff {t sd ed : String}
    {sf mf : Except PyErr PriceSeries} {bm : BetaMetrics} :
    calculate_beta t sf mf sd ed = Except.ok bm ↔
      calculateBetaCore t sf mf sd ed = Except.ok bm := by
  cases hc : calculateBetaCore t sf mf sd ed <;> simp [calculate_beta, hc]

theorem calculate_beta_err_wrap {t sd ed : String}
    {sf mf : Except PyErr PriceSeries} {e : PyErr}
    (h : calculateBetaCore t sf mf sd ed = Except.error e) :
    calculate_beta t sf mf sd ed =
      Except.error (PyErr.exception ("Beta calculation failed for " ++ t) e) := by
  simp [calculate_beta, h]

theorem calculate_beta_error_iff {t sd ed : String}
    {sf mf : Except PyErr PriceSeries} {E : PyErr} :
    calculate_beta t sf mf sd ed = Except.error E ↔
      ∃ e, calculateBetaCore t sf mf sd ed = Except.error e ∧
        E = PyErr.exception ("Beta calculation failed for " ++ t) e := by
  cases hc : calculateBetaCore t sf mf sd ed <;>
    simp [calculate_beta, hc, eq_comm]

theorem calculateBetaCore_ok (t sd ed : String) (stock market : PriceSeries)
    (h1 : ¬ (alignSeries stock market).length < 30)
    (h2 : ¬ (returnRows (alignSeries stock market)).length < 30) :
    calculateBetaCore t (Except.ok stock) (Except.ok market) sd ed =
      Except.ok
        { ticker := t
          beta :=
            sampleCov ((returnRows (alignSeries stock market)).map ReturnRow.stock_ret)
                ((returnRows (alignSeries stock market)).map ReturnRow.market_ret) /
              sampleVar ((returnRows (alignSeries stock market)).map ReturnRow.market_ret)
          correlation_sq :=
            corrSq ((returnRows (alignSeries stock market)).map ReturnRow.stock_ret)
              ((returnRows (alignSeries stock market)).map ReturnRow.market_ret)
          r_squared :=
            rSquared ((returnRows (alignSeries stock market)).map ReturnRow.market_ret)
              ((returnRows (alignSeries stock market)).map ReturnRow.stock_ret)
          volatility_stock_sq :=
            listPopVar ((returnRows (alignSeries stock market)).map ReturnRow.stock_ret) * 252
          volatility_market_sq :=
            listPopVar ((returnRows (alignSeries stock market)).map ReturnRow.market_ret) * 252
          data_points_used := (returnRows (alignSeries stock market)).length
          start_date := sd
          end_date := ed } := by
  simp [calculateBetaCore, h1, h2]

theorem calculateBetaCore_insufficient (t sd ed : String)
    (stock market : PriceSeries)
    (h : (returnRows (alignSeries stock market)).length < 30) :
    ∃ msg, calculateBetaCore t (Except.ok stock) (Except.ok market) sd ed =
      Except.error (PyErr.valueError msg) := by
  by_cases h1 : (alignSeries stock market).length < 30
  · refine ⟨"Insufficient aligned data points: " ++
      toString (alignSeries stock market).length ++
      ". Need minimum 30 trading days for meaningful beta calculation.", ?_⟩
    simp [calculateBetaCore, h1]
  · refine ⟨"Insufficient valid return observations: " ++
      toString (returnRows (alignSeries stock market)).length, ?_⟩
    simp [calculateBetaCore, h1, h]

theorem calculateBetaCore_error_inv {t sd ed : String}
    {stock market : PriceSeries} {e : PyErr}
    (h : calculateBetaCore t (Except.ok stock) (Except.ok market) sd ed =
      Except.error e) :
    (∃ msg, e = PyErr.valueError msg) ∧
      (returnRows (alignSeries stock market)).length < 30 := by
  by_cases h1 : (alignSeries stock market).length < 30
  · simp only [calculateBetaCore, if_pos h1, Except.error.injEq] at h
    refine ⟨⟨_, h.symm⟩, ?_⟩
    rw [length_returnRows]
    omega
  · by_cases h2 : (returnRows (alignSeries stock market)).length < 30
    · simp only [calculateBetaCore, if_neg h1, if_pos h2, Except.error.injEq] at h
      exact ⟨⟨_, h.symm⟩, h2⟩
    · rw [calculateBetaCore_ok t sd ed stock market h1 h2] at h
      cases h

theorem calculate_beta_insufficient (t sd ed : String)
    (stock market : PriceSeries)
    (h : (returnRows (alignSeries stock market)).length < 30) :
    ∃ msg, calculate_beta t (Except.ok stock) (Except.ok market) sd ed =
      Except.error (PyErr.exception ("Beta calculation failed for " ++ t)
        (PyErr.valueError msg)) := by
  obtain ⟨msg, hmsg⟩ := calculateBetaCore_insufficient t sd ed stock market h
  exact ⟨msg, calculate_beta_err_wrap hmsg⟩

theorem calculate_beta_isOk_iff (t sd ed : String) (stock market : PriceSeries) :
    (calculate_beta t (Except.ok stock) (Except.ok market) sd ed).isOk = true ↔
      ¬ (returnRows (alignSeries stock market)).length < 30 := by
  constructor
  · intro hok hn
    obtain ⟨msg, hmsg⟩ := calculate_beta_insufficient t sd ed stock market hn
    rw [hmsg] at hok
    cases hok
  · intro hn
    have h1 : ¬ (alignSeries stock market).length < 30 := by
      rw [length_returnRows] at hn
      omega
    rw [calculate_beta_ok_iff.mpr (calculateBetaCore_ok t sd ed stock market h1 hn)]
    rfl

/- ### Lemmas: WACC estimator -/

theorem calculate_wacc_ok_iff {t sd ed : String} {env : WaccEnv}
    {rfo mrpo cso : Option ℚ} {m : WACCMetrics} :
    calculate_wacc t env sd ed rfo mrpo cso = Except.ok m ↔
      calculateWaccCore t env sd ed rfo mrpo cso = Except.ok m := by
  cases hc : calculateWaccCore t env sd ed rfo mrpo cso <;>
    simp [calculate_wacc, hc]

theorem calculate_wacc_err_wrap {t sd ed : String} {env : WaccEnv}
    {rfo mrpo cso : Option ℚ} {e : PyErr}
    (h : calculateWaccCore t env sd ed rfo mrpo cso = Except.error e) :
    calculate_wacc t env sd ed rfo mrpo cso =
      Except.error (PyErr.exception ("WACC calculation failed for " ++ t) e) := by
  simp [calculate_wacc, h]

theorem calculateWaccCore_ok (t sd ed : String) (env : WaccEnv)
    (rfo mrpo cso : Option ℚ) (r0 b0 : Row) (rrest brest : List Row)
    (bm : BetaMetrics)
    (hr : env.ratioFetch = Except.ok (r0 :: rrest))
    (hb : env.balanceFetch = Except.ok (b0 :: brest))
    (hmc : ¬ resolvedMarketCap r0 = 0)
    (htv : ¬ resolvedMarketCap r0 + resolvedTotalDebt b0 = 0)
    (hbeta : calculate_beta t env.stockFetch env.marketFetch sd ed =
      Except.ok bm) :
    calculateWaccCore t env sd ed rfo mrpo cso =
      Except.ok (mkWacc t (orDefault rfo VIETNAM_RISK_FREE_RATE)
        (orDefault mrpo VIETNAM_MARKET_RISK_PREMIUM)
        (orDefault cso DEFAULT_CREDIT_SPREAD)
        (resolvedMarketCap r0) (resolvedTotalDebt b0) bm.beta) := by
  simp [calculateWaccCore, hr, hb, hmc, htv, hbeta]

theorem calculateWaccCore_firmValueZero (t sd ed : String) (env : WaccEnv)
    (rfo mrpo cso : Option ℚ) (r0 b0 : Row) (rrest brest : List Row)
    (hr : env.ratioFetch = Except.ok (r0 :: rrest))
    (hb : env.balanceFetch = Except.ok (b0 :: brest))
    (hmc : ¬ resolvedMarketCap r0 = 0)
    (htv : resolvedMarketCap r0 + resolvedTotalDebt b0 = 0) :
    calculateWaccCore t env sd ed rfo mrpo cso =
      Except.error (PyErr.valueError ("Cannot determine firm value for " ++ t)) := by
  simp [calculateWaccCore, hr, hb, hmc, htv]

theorem calculateWaccCore_ok_inv {t sd ed : String} {env : WaccEnv}
    {rfo mrpo cso : Option ℚ} {m : WACCMetrics}
    (h : calculateWaccCore t env sd ed rfo mrpo cso = Except.ok m) :
    ∃ r0 rrest b0 brest bm,
      env.ratioFetch = Except.ok (r0 :: rrest) ∧
      env.balanceFetch = Except.ok (b0 :: brest) ∧
      ¬ resolvedMarketCap r0 = 0 ∧
      ¬ resolvedMarketCap r0 + resolvedTotalDebt b0 = 0 ∧
      calculate_beta t env.stockFetch env.marketFetch sd ed = Except.ok bm ∧
      m = mkWacc t (orDefault rfo VIETNAM_RISK_FREE_RATE)
        (orDefault mrpo VIETNAM_MARKET_RISK_PREMIUM)
        (orDefault cso DEFAULT_CREDIT_SPREAD)
        (resolvedMarketCap r0) (resolvedTotalDebt b0) bm.beta := by
  unfold calculateWaccCore at h
  rcases hre : env.ratioFetch with e | ratio_data
  all_goals rw [hre] at h
  · simp at h
  rcases hbe : env.balanceFetch with e | balance_data
  all_goals rw [hbe] at h
  · simp at h
  rcases ratio_data with _ | ⟨r0, rrest⟩
  · simp at h
  rcases balance_data with _ | ⟨b0, brest⟩
  · simp at h
  simp only at h
  by_cases hmc : resolvedMarketCap r0 = 0
  · rw [if_pos hmc] at h
    cases h
  rw [if_neg hmc] at h
  by_cases htv : resolvedMarketCap r0 + resolvedTotalDebt b0 = 0
  · rw [if_pos htv] at h
    cases h
  rw [if_neg htv] at h
  rcases hbeta : calculate_beta t env.stockFetch env.marketFetch sd ed with e | bm
  all_goals rw [hbeta] at h
  · simp at h
  simp only [Except.ok.injEq] at h
  exact ⟨r0, rrest, b0, brest, bm, rfl, rfl, hmc, htv, rfl, h.symm⟩

theorem calculate_wacc_ok_inv {t sd ed : String} {env : WaccEnv}
    {rfo mrpo cso : Option ℚ} {m : WACCMetrics}
    (h : calculate_wacc t env sd ed rfo mrpo cso = Except.ok m) :
    ∃ r0 rrest b0 brest bm,
      env.ratioFetch = Except.ok (r0 :: rrest) ∧
      env.balanceFetch = Except.ok (b0 :: brest) ∧
      ¬ resolvedMarketCap r0 = 0 ∧
      ¬ resolvedMarketCap r0 + resolvedTotalDebt b0 = 0 ∧
      calculate_beta t env.stockFetch env.marketFetch sd ed = Except.ok bm ∧
      m = mkWacc t (orDefault rfo VIETNAM_RISK_FREE_RATE)
        (orDefault mrpo VIETNAM_MARKET_RISK_PREMIUM)
        (orDefault cso DEFAULT_CREDIT_SPREAD)
        (resolvedMarketCap r0) (resolvedTotalDebt b0) bm.beta :=
  calculateWaccCore_ok_inv (calculate_wacc_ok_iff.mp h)

/- ### Lemmas: mkWacc algebra -/

theorem mkWacc_fields (t : String) (rf mrp sp mc td beta : ℚ) :
    (mkWacc t rf mrp sp mc td beta).wacc =
        (mkWacc t rf mrp sp mc td beta).equity_weight *
          (mkWacc t rf mrp sp mc td beta).cost_of_equity +
        (mkWacc t rf mrp sp mc td beta).debt_weight *
          (mkWacc t rf mrp sp mc td beta).cost_of_debt ∧
      (mkWacc t rf mrp sp mc td beta).cost_of_equity = rf + beta * mrp ∧
      (mkWacc t rf mrp sp mc td beta).cost_of_debt =
        (rf + sp) * (1 - VIETNAM_CORPORATE_TAX_RATE) ∧
      (mkWacc t rf mrp sp mc td beta).equity_weight = mc / (mc + td) ∧
      (mkWacc t rf mrp sp mc td beta).debt_weight = td / (mc + td) ∧
      (mkWacc t rf mrp sp mc td beta).total_value = mc + td ∧
      (mkWacc t rf mrp sp mc td beta).market_value_equity = mc ∧
      (mkWacc t rf mrp sp mc td beta).market_value_debt = td ∧
      (mkWacc t rf mrp sp mc td beta).risk_free_rate = rf ∧
      (mkWacc t rf mrp sp mc td beta).market_risk_premium = mrp ∧
      (mkWacc t rf mrp sp mc td beta).tax_rate = VIETNAM_CORPORATE_TAX_RATE ∧
      (mkWacc t rf mrp sp mc td beta).beta = beta := by
  refine ⟨rfl, rfl, rfl, rfl, rfl, rfl, rfl, rfl, rfl, rfl, rfl, rfl⟩

theorem mkWacc_weights_sum (t : String) (rf mrp sp mc td beta : ℚ)
    (h : mc + td ≠ 0) :
    (mkWacc t rf mrp sp mc td beta).equity_weight +
      (mkWacc t rf mrp sp mc td beta).debt_weight = 1 := by
  show mc / (mc + td) + td / (mc + td) = 1
  rw [div_add_div_same, div_self h]

theorem safeGetFloat_invalid {row : Row} {k : String} {d : ℚ}
    (h : invalidField (List.lookup k row)) : safeGetFloat row k d = d := by
  unfold safeGetFloat
  rcases hl : List.lookup k row with _ | (x | _ | _ | _)
  · rfl
  · rw [hl] at h
    exact False.elim h
  · rfl
  · rfl
  · rfl

/- ### Lemmas: valuation suite -/

theorem calculate_valuation_suite_ok_iff {t sd ed : String} {env : WaccEnv}
    {lst : List ValuationMetrics} :
    calculate_valuation_suite t env sd ed = Except.ok lst ↔
      calculateValuationSuiteCore t env sd ed = Except.ok lst := by
  cases hc : calculateValuationSuiteCore t env sd ed <;>
    simp [calculate_valuation_suite, hc]

theorem suiteRows_ok_inv {t sd ed : String} {bm : BetaMetrics}
    {wm : WACCMetrics} {rows : List Row} {lst : List ValuationMetrics}
    (h : suiteRows t sd ed bm wm rows = Except.ok lst) :
    lst.length = rows.length ∧
      ∀ v ∈ lst, ∃ yr row, row ∈ rows ∧
        v = mkValuationRecord t sd ed bm wm yr row := by
  induction rows generalizing lst with
  | nil =>
    cases h
    simp
  | cons row rest ih =>
    unfold suiteRows at h
    rcases hyr : yearReportVal row with e | yr
    all_goals rw [hyr] at h
    · cases h
    rcases hrec : suiteRows t sd ed bm wm rest with e | tail
    all_goals rw [hrec] at h
    · cases h
    simp only [Except.ok.injEq] at h
    subst h
    obtain ⟨hlen, hmem⟩ := ih hrec
    refine ⟨by simp [hlen], ?_⟩
    intro v hv
    rcases List.mem_cons.mp hv with hv | hv
    · exact ⟨yr, row, List.mem_cons_self row rest, hv⟩
    · obtain ⟨yr2, row2, hrow2, hv2⟩ := hmem v hv
      exact ⟨yr2, row2, List.mem_cons_of_mem row hrow2, hv2⟩

theorem suite_core_ok (t sd ed : String) (env : WaccEnv)
    (bm : BetaMetrics) (wm : WACCMetrics) (rows : List Row)
    (hbm : calculate_beta t env.stockFetch env.marketFetch sd ed =
      Except.ok bm)
    (hwm : calculate_wacc t env sd ed none none none = Except.ok wm)
    (hrows : env.ratioFetch = Except.ok rows) :
    calculateValuationSuiteCore t env sd ed =
      suiteRows t sd ed bm wm rows := by
  simp [calculateValuationSuiteCore, hbm, hwm, hrows]

/- ### Lemmas: evaluating the alignment on series with identical dates -/

theorem flatMap_congr {α β : Type} {l : List α} {f g : α → List β}
    (h : ∀ a ∈ l, f a = g a) : l.flatMap f = l.flatMap g := by
  induction l with
  | nil => rfl
  | cons a l ih =>
    rw [List.flatMap_cons, List.flatMap_cons, h a (List.mem_cons_self a l),
      ih fun b hb => h b (List.mem_cons_of_mem a hb)]

theorem innerMergeOnTime_eq_zipWith (s m : PriceSeries)
    (hspine : s.map Prod.fst = m.map Prod.fst)
    (hnd : (m.map Prod.fst).Nodup) :
    innerMergeOnTime s m =
      List.zipWith (fun p q => (⟨p.1, p.2, q.2⟩ : AlignedRow)) s m := by
  induction s generalizing m with
  | nil =>
    cases m with
    | nil => rfl
    | cons q m2 => simp at hspine
  | cons p s ih =>
    cases m with
    | nil => simp at hspine
    | cons q m2 =>
      simp only [List.map_cons, List.cons.injEq] at hspine
      simp only [List.map_cons, List.nodup_cons] at hnd
      rw [List.zipWith_cons_cons, innerMergeOnTime, List.flatMap_cons]
      have hhead :
          ((q :: m2).filterMap fun r =>
            if r.1 = p.1 then some (⟨p.1, p.2, r.2⟩ : AlignedRow) else none) =
            [⟨p.1, p.2, q.2⟩] := by
        rw [List.filterMap_cons, if_pos hspine.1.symm,
          filterMapKey_eq_nil p m2 (by rw [hspine.1]; exact hnd.1)]
      have htail :
          (s.flatMap fun a =>
            (q :: m2).filterMap fun r =>
              if r.1 = a.1 then some (⟨a.1, a.2, r.2⟩ : AlignedRow) else none) =
            innerMergeOnTime s m2 := by
        rw [innerMergeOnTime]
        refine flatMap_congr fun a ha => ?_
        rw [List.filterMap_cons, if_neg ?_]
        intro hqa
        apply hnd.1
        rw [hqa, ← hspine.2]
        exact List.mem_map_of_mem Prod.fst ha
      rw [hhead, htail, ih m2 hspine.2 hnd.2]
      rfl

/- ### Evaluation of the running example -/

theorem exAlign : alignSeries exStock31 exMarket31 = alignedLit := by
  have hspine : exStock31.map Prod.fst = exMarket31.map Prod.fst := rfl
  have hnd : (exMarket31.map Prod.fst).Nodup := by decide
  rw [alignSeries, innerMergeOnTime_eq_zipWith exStock31 exMarket31 hspine hnd]
  have hz : List.zipWith (fun p q => (⟨p.1, p.2, q.2⟩ : AlignedRow))
      exStock31 exMarket31 = alignedLit := rfl
  rw [hz, sortByTime]
  exact List.Sorted.insertionSort_eq (by decide)

theorem exReturns : returnRows alignedLit = returnsLit := by
  rw [returnRows, alignedLit, returnsLit]
  norm_num [List.zip_cons_cons, List.zip_nil_right, List.tail_cons,
    List.map_cons, List.map_nil, ReturnRow.mk.injEq]

theorem exSrets : returnsLit.map ReturnRow.stock_ret = sretsLit := rfl

theorem exMrets : returnsLit.map ReturnRow.market_ret = mretsLit := rfl

theorem exMeanS : listMean sretsLit = 5/16 := by
  norm_num [listMean, sretsLit, List.sum_cons, List.sum_nil]

theorem exMeanM : listMean mretsLit = 1/4 := by
  norm_num [listMean, mretsLit, List.sum_cons, List.sum_nil]

theorem exCovSM : sampleCov sretsLit mretsLit = 675/928 := by
  rw [sampleCov, exMeanS, exMeanM]
  norm_num [sretsLit, mretsLit, List.zip_cons_cons, List.zip_nil_right,
    List.map_cons, List.map_nil, List.sum_cons, List.sum_nil]

theorem exVarM : sampleVar mretsLit = 135/232 := by
  rw [sampleVar, sampleCov, exMeanM]
  norm_num [mretsLit, List.zip_cons_cons, List.zip_nil_right,
    List.map_cons, List.map_nil, List.sum_cons, List.sum_nil]

theorem exVarS : sampleVar sretsLit = 3375/3712 := by
  rw [sampleVar, sampleCov, exMeanS]
  norm_num [sretsLit, List.zip_cons_cons, List.zip_nil_right,
    List.map_cons, List.map_nil, List.sum_cons, List.sum_nil]

theorem exBetaVal : sampleCov sretsLit mretsLit / sampleVar mretsLit = 5/4 := by
  rw [exCovSM, exVarM]
  norm_num

theorem exCorrSq : corrSq sretsLit mretsLit = 1 := by
  rw [corrSq, exCovSM, exVarS, exVarM]
  norm_num

theorem exPopVarS : listPopVar sretsLit = 225/256 := by
  rw [listPopVar, exMeanS]
  norm_num [sretsLit, List.map_cons, List.map_nil, List.sum_cons, List.sum_nil]

theorem exPopVarM : listPopVar mretsLit = 9/16 := by
  rw [listPopVar, exMeanM]
  norm_num [mretsLit, List.map_cons, List.map_nil, List.sum_cons, List.sum_nil]

theorem exSlope : olsSlope mretsLit sretsLit = 5/4 := by
  rw [olsSlope, exCovSM, exVarM]
  norm_num

theorem exIntercept : olsIntercept mretsLit sretsLit = 0 := by
  rw [olsIntercept, exSlope, exMeanS, exMeanM]
  norm_num

theorem exSsRes : ssRes mretsLit sretsLit = 0 := by
  rw [ssRes, exSlope, exIntercept]
  norm_num [mretsLit, sretsLit, List.zip_cons_cons, List.zip_nil_right,
    List.map_cons, List.map_nil, List.sum_cons, List.sum_nil]

theorem exSsTot : ssTot sretsLit = 3375/128 := by
  rw [ssTot, exMeanS]
  norm_num [sretsLit, List.map_cons, List.map_nil, List.sum_cons, List.sum_nil]

theorem exRSq : rSquared mretsLit sretsLit = 1 := by
  rw [rSquared, if_pos (by rw [exSsTot]; norm_num), exSsRes, exSsTot]
  norm_num

/-- The beta computation on the running example succeeds with beta exactly
5/4, perfect correlation and fit, and the population-variance-based
annualized volatilities. -/
theorem exBeta_ok :
    calculate_beta "FPT" (Except.ok exStock31) (Except.ok exMarket31)
      "2023-01-01" "2023-12-31" = Except.ok exBetaM := by
  have h1 : ¬ (alignSeries exStock31 exMarket31).length < 30 := by
    rw [exAlign]
    decide
  have hret : returnRows (alignSeries exStock31 exMarket31) = returnsLit := by
    rw [exAlign, exReturns]
  have h2 : ¬ (returnRows (alignSeries exStock31 exMarket31)).length < 30 := by
    rw [hret]
    decide
  have exVolS : listPopVar sretsLit * 252 = 14175/64 := by
    rw [exPopVarS]
    norm_num
  have exVolM : listPopVar mretsLit * 252 = 567/4 := by
    rw [exPopVarM]
    norm_num
  have exLen : returnsLit.length = 30 := by decide
  rw [calculate_beta_ok_iff,
    calculateBetaCore_ok "FPT" "2023-01-01" "2023-12-31" exStock31 exMarket31 h1 h2,
    hret, exSrets, exMrets, exBetaVal, exCorrSq, exRSq, exVolS, exVolM, exLen]
  rfl

/- ### Evaluation of the example WACC environments -/

theorem exMc75 : resolvedMarketCap exRatioRow = 75 := by
  with_unfolding_all decide

theorem exTd25 : resolvedTotalDebt exBalanceRow = 25 := by
  with_unfolding_all decide

theorem exWaccC3_ok :
    calculate_wacc "FPT" envC3 "2023-01-01" "2023-12-31" none none none =
      Except.ok exWaccM := by
  rw [calculate_wacc_ok_iff,
    calculateWaccCore_ok "FPT" "2023-01-01" "2023-12-31" envC3 none none none
      exRatioRow exBalanceRow [] [] exBetaM rfl rfl
      (by rw [exMc75]; norm_num) (by rw [exMc75, exTd25]; norm_num) exBeta_ok,
    exMc75, exTd25]
  have hb : exBetaM.beta = 5/4 := rfl
  rw [hb, exWaccM]
  norm_num [orDefault, VIETNAM_RISK_FREE_RATE, VIETNAM_MARKET_RISK_PREMIUM,
    DEFAULT_CREDIT_SPREAD]

theorem exMc50 : resolvedMarketCap ratioRow50 = 50 := by
  with_unfolding_all decide

theorem exTdNeg25 : resolvedTotalDebt negBalanceRow = -25 := by
  with_unfolding_all decide

theorem exWaccC4_ok :
    calculate_wacc "FPT" envC4 "2023-01-01" "2023-12-31" none none none =
      Except.ok (mkWacc "FPT" (7/200) (1/20) (1/40) 50 (-25) (5/4)) := by
  rw [calculate_wacc_ok_iff,
    calculateWaccCore_ok "FPT" "2023-01-01" "2023-12-31" envC4 none none none
      ratioRow50 negBalanceRow [] [] exBetaM rfl rfl
      (by rw [exMc50]; norm_num) (by rw [exMc50, exTdNeg25]; norm_num) exBeta_ok,
    exMc50, exTdNeg25]
  have hb : exBetaM.beta = 5/4 := rfl
  rw [hb]
  norm_num [orDefault, VIETNAM_RISK_FREE_RATE, VIETNAM_MARKET_RISK_PREMIUM,
    DEFAULT_CREDIT_SPREAD]

theorem exTdNeg100 :
    resolvedTotalDebt [("short_term_borrowings", FieldVal.num (-100))] = -100 := by
  with_unfolding_all decide

theorem exWaccC7_ok :
    calculate_wacc "FPT" envC7 "2023-01-01" "2023-12-31" none none none =
      Except.ok (mkWacc "FPT" (7/200) (1/20) (1/40) 50 (-100) (5/4)) := by
  rw [calculate_wacc_ok_iff,
    calculateWaccCore_ok "FPT" "2023-01-01" "2023-12-31" envC7 none none none
      ratioRow50 [("short_term_borrowings", FieldVal.num (-100))] [] [] exBetaM
      rfl rfl (by rw [exMc50]; norm_num)
      (by rw [exMc50, exTdNeg100]; norm_num) exBeta_ok,
    exMc50, exTdNeg100]
  have hb : exBetaM.beta = 5/4 := rfl
  rw [hb]
  norm_num [orDefault, VIETNAM_RISK_FREE_RATE, VIETNAM_MARKET_RISK_PREMIUM,
    DEFAULT_CREDIT_SPREAD]

theorem exTdNeg50 :
    resolvedTotalDebt [("short_term_borrowings", FieldVal.num (-50))] = -50 := by
  with_unfolding_all decide

theorem exTdInvalid : resolvedTotalDebt invalidBalanceRow = 0 := by
  with_unfolding_all decide

theorem exWaccC10_ok :
    calculate_wacc "FPT" envC10 "2023-01-01" "2023-12-31" none none none =
      Except.ok (mkWacc "FPT" (7/200) (1/20) (1/40) 75 0 (5/4)) := by
  rw [calculate_wacc_ok_iff,
    calculateWaccCore_ok "FPT" "2023-01-01" "2023-12-31" envC10 none none none
      exRatioRow invalidBalanceRow [] [] exBetaM rfl rfl
      (by rw [exMc75]; norm_num) (by rw [exMc75, exTdInvalid]; norm_num)
      exBeta_ok,
    exMc75, exTdInvalid]
  have hb : exBetaM.beta = 5/4 := rfl
  rw [hb]
  norm_num [orDefault, VIETNAM_RISK_FREE_RATE, VIETNAM_MARKET_RISK_PREMIUM,
    DEFAULT_CREDIT_SPREAD]

theorem exMcC9 : resolvedMarketCap c9Row1 = 75 := by
  with_unfolding_all decide

theorem exWaccC9_ok :
    calculate_wacc "FPT" envC9 "2023-01-01" "2023-12-31" none none none =
      Except.ok exWaccM := by
  rw [calculate_wacc_ok_iff,
    calculateWaccCore_ok "FPT" "2023-01-01" "2023-12-31" envC9 none none none
      c9Row1 exBalanceRow [c9Row2] [] exBetaM rfl rfl
      (by rw [exMcC9]; norm_num) (by rw [exMcC9, exTd25]; norm_num) exBeta_ok,
    exMcC9, exTd25]
  have hb : exBetaM.beta = 5/4 := rfl
  rw [hb, exWaccM]
  norm_num [orDefault, VIETNAM_RISK_FREE_RATE, VIETNAM_MARKET_RISK_PREMIUM,
    DEFAULT_CREDIT_SPREAD]

theorem exYearC9Row1 : yearReportVal c9Row1 = Except.ok (some 2023) := by
  have h1 : safeGet c9Row1 "yearReport" = some (FieldVal.num 2023) := by
    decide
  rw [yearReportVal, h1]
  norm_num [pyTruthy, pyInt]

theorem exYearC9Row2 : yearReportVal c9Row2 = Except.ok (some 2022) := by
  have h1 : safeGet c9Row2 "yearReport" = some (FieldVal.num 2022) := by
    decide
  rw [yearReportVal, h1]
  norm_num [pyTruthy, pyInt]

theorem exSuiteC9_ok :
    calculate_valuation_suite "FPT" envC9 "2023-01-01" "2023-12-31" =
      Except.ok
        [mkValuationRecord "FPT" "2023-01-01" "2023-12-31" exBetaM exWaccM
          (some 2023) c9Row1,
         mkValuationRecord "FPT" "2023-01-01" "2023-12-31" exBetaM exWaccM
          (some 2022) c9Row2] := by
  rw [calculate_valuation_suite_ok_iff,
    suite_core_ok "FPT" "2023-01-01" "2023-12-31" envC9 exBetaM exWaccM
      [c9Row1, c9Row2] exBeta_ok exWaccC9_ok rfl]
  rw [suiteRows, exYearC9Row1, suiteRows, exYearC9Row2, suiteRows]

/- ### Claim theorems -/

/-- Claim C1: for every pair of fetched price series sharing at least 31
common trading dates (each date listed once per series, closes positive),
the Data Alignment step of `calculate_beta` (`alignSeries` followed by
`returnRows`) produces stock and market return series of equal length, that
length equals the number of common trading dates minus 1, and every date
contributing a return is present in both input series. -/
theorem claim_C1 (stock market : PriceSeries)
    (hs : (stock.map Prod.fst).Nodup) (hm : (market.map Prod.fst).Nodup)
    (hps : ∀ p ∈ stock, 0 < p.2) (hpm : ∀ p ∈ market, 0 < p.2)
    (hcommon : 31 ≤ (commonDates stock market).length) :
    ((returnRows (alignSeries stock market)).map ReturnRow.stock_ret).length =
      ((returnRows (alignSeries stock market)).map ReturnRow.market_ret).length ∧
    (returnRows (alignSeries stock market)).length =
      (commonDates stock market).length - 1 ∧
    ∀ r ∈ returnRows (alignSeries stock market),
      r.time ∈ stock.map Prod.fst ∧ r.time ∈ market.map Prod.fst := by
  refine ⟨by rw [List.length_map, List.length_map], ?_, ?_⟩
  · rw [length_returnRows, length_alignSeries stock market hm]
  · intro r hr
    obtain ⟨row, hrow, ht⟩ := mem_returnRows_time hr
    rw [ht]
    exact mem_alignSeries hrow

/-- Witness for C1 at the 31-date example series. -/
theorem claim_C1_witness :
    ((returnRows (alignSeries exStock31 exMarket31)).map ReturnRow.stock_ret).length =
      ((returnRows (alignSeries exStock31 exMarket31)).map ReturnRow.market_ret).length ∧
    (returnRows (alignSeries exStock31 exMarket31)).length =
      (commonDates exStock31 exMarket31).length - 1 ∧
    ∀ r ∈ returnRows (alignSeries exStock31 exMarket31),
      r.time ∈ exStock31.map Prod.fst ∧ r.time ∈ exMarket31.map Prod.fst :=
  claim_C1 exStock31 exMarket31 (by decide) (by decide)
    (by with_unfolding_all decide) (by with_unfolding_all decide) (by decide)

/-- Claim C2: with the two price fetches succeeding (dates unique, closes
positive), `calculate_beta` fails with the wrapped insufficient-data
`ValueError` exactly when the number of valid aligned return observations is
below 30, and succeeds exactly when it is at least 30.  In particular 29
return observations raise and 30 succeed (see the witness). -/
theorem claim_C2 (t sd ed : String) (stock market : PriceSeries)
    (hs : (stock.map Prod.fst).Nodup) (hm : (market.map Prod.fst).Nodup)
    (hps : ∀ p ∈ stock, 0 < p.2) (hpm : ∀ p ∈ market, 0 < p.2) :
    ((∃ msg, calculate_beta t (Except.ok stock) (Except.ok market) sd ed =
        Except.error (PyErr.exception ("Beta calculation failed for " ++ t)
          (PyErr.valueError msg))) ↔
      (returnRows (alignSeries stock market)).length < 30) ∧
    ((calculate_beta t (Except.ok stock) (Except.ok market) sd ed).isOk = true ↔
      30 ≤ (returnRows (alignSeries stock market)).length) := by
  constructor
  · constructor
    · rintro ⟨msg, hmsg⟩
      obtain ⟨e, hcore, hE⟩ := calculate_beta_error_iff.mp hmsg
      exact (calculateBetaCore_error_inv hcore).2
    · intro hn
      exact calculate_beta_insufficient t sd ed stock market hn
  · rw [calculate_beta_isOk_iff]
    exact not_lt

/-- Witness for C2: the 30-date series (29 return observations) raises the
insufficient-data error, the 31-date series (30 observations) succeeds. -/
theorem claim_C2_witness :
    (∃ msg, calculate_beta "FPT" (Except.ok exStock30) (Except.ok exMarket30)
        "2023-01-01" "2023-12-31" =
      Except.error (PyErr.exception ("Beta calculation failed for " ++ "FPT")
        (PyErr.valueError msg))) ∧
    (calculate_beta "FPT" (Except.ok exStock31) (Except.ok exMarket31)
        "2023-01-01" "2023-12-31").isOk = true := by
  constructor
  · exact (claim_C2 "FPT" "2023-01-01" "2023-12-31" exStock30 exMarket30
      (by decide) (by decide) (by with_unfolding_all decide)
      (by with_unfolding_all decide)).1.mpr (by decide)
  · exact (claim_C2 "FPT" "2023-01-01" "2023-12-31" exStock31 exMarket31
      (by decide) (by decide) (by with_unfolding_all decide)
      (by with_unfolding_all decide)).2.mpr (by decide)

/-- Claim C3: every successful `calculate_wacc` result satisfies
wacc = equity_weight * cost_of_equity + debt_weight * cost_of_debt, with
cost_of_equity = risk_free_rate + beta * market_risk_premium and
cost_of_debt = (risk_free_rate + credit_spread) * (1 - tax_rate).  The
claim's numeric instance (0.0975, 0.048, 0.085125 = 39/400, 6/125, 681/8000)
is checked in the witness. -/
theorem claim_C3 (t sd ed : String) (env : WaccEnv)
    (rfo mrpo cso : Option ℚ) (m : WACCMetrics)
    (h : calculate_wacc t env sd ed rfo mrpo cso = Except.ok m) :
    m.wacc = m.equity_weight * m.cost_of_equity +
      m.debt_weight * m.cost_of_debt ∧
    m.cost_of_equity = m.risk_free_rate + m.beta * m.market_risk_premium ∧
    m.cost_of_debt = (m.risk_free_rate + orDefault cso DEFAULT_CREDIT_SPREAD) *
      (1 - m.tax_rate) := by
  obtain ⟨r0, rrest, b0, brest, bm, hr, hb, hmc, htv, hbeta, hm⟩ :=
    calculate_wacc_ok_inv h
  subst hm
  exact ⟨rfl, rfl, rfl⟩

/-- Witness for C3: on `envC3` (market cap 75, debt 25, beta 5/4, default
assumptions rf = 7/200 = 0.035, mrp = 1/20 = 0.05, spread = 1/40 = 0.025,
tax = 1/5 = 0.20) the result has cost_of_equity = 39/400 = 0.0975,
cost_of_debt = 6/125 = 0.048, wacc = 681/8000 = 0.085125. -/
theorem claim_C3_witness :
    calculate_wacc "FPT" envC3 "2023-01-01" "2023-12-31" none none none =
      Except.ok exWaccM ∧
    (exWaccM.wacc = exWaccM.equity_weight * exWaccM.cost_of_equity +
        exWaccM.debt_weight * exWaccM.cost_of_debt ∧
      exWaccM.cost_of_equity =
        exWaccM.risk_free_rate + exWaccM.beta * exWaccM.market_risk_premium ∧
      exWaccM.cost_of_debt =
        (exWaccM.risk_free_rate + orDefault none DEFAULT_CREDIT_SPREAD) *
          (1 - exWaccM.tax_rate)) ∧
    exWaccM.risk_free_rate = 7/200 ∧ exWaccM.market_risk_premium = 1/20 ∧
    exWaccM.beta = 5/4 ∧ exWaccM.tax_rate = 1/5 ∧
    exWaccM.equity_weight = 3/4 ∧ exWaccM.debt_weight = 1/4 ∧
    exWaccM.cost_of_equity = 39/400 ∧ exWaccM.cost_of_debt = 6/125 ∧
    exWaccM.wacc = 681/8000 := by
  refine ⟨exWaccC3_ok,
    claim_C3 "FPT" "2023-01-01" "2023-12-31" envC3 none none none exWaccM
      exWaccC3_ok, ?_⟩
  norm_num [exWaccM, mkWacc, VIETNAM_CORPORATE_TAX_RATE]

/-- Claim C4 fails as stated: with a negative reported short-term borrowing
(market cap 50, borrowings -25) `calculate_wacc` succeeds with equity weight
2 and debt weight -1, outside [0, 1]. -/
theorem claim_C4_counterexample :
    calculate_wacc "FPT" envC4 "2023-01-01" "2023-12-31" none none none =
      Except.ok (mkWacc "FPT" (7/200) (1/20) (1/40) 50 (-25) (5/4)) ∧
    (mkWacc "FPT" (7/200) (1/20) (1/40) 50 (-25) (5/4)).equity_weight = 2 ∧
    (mkWacc "FPT" (7/200) (1/20) (1/40) 50 (-25) (5/4)).debt_weight = -1 ∧
    ¬ ((mkWacc "FPT" (7/200) (1/20) (1/40) 50 (-25) (5/4)).equity_weight ≤ 1 ∧
      0 ≤ (mkWacc "FPT" (7/200) (1/20) (1/40) 50 (-25) (5/4)).debt_weight) := by
  refine ⟨exWaccC4_ok, ?_, ?_, ?_⟩ <;> norm_num [mkWacc]

/-- Claim C4 amended: for every successful `calculate_wacc` computation the
weights sum to exactly 1 (hence within 1e-9 of 1); and the weights lie in
[0, 1] whenever the market capitalization and the reported total debt are
nonnegative — negative reported borrowings can push them outside [0, 1]. -/
theorem claim_C4_amended (t sd ed : String) (env : WaccEnv)
    (rfo mrpo cso : Option ℚ) (m : WACCMetrics) (r0 b0 : Row)
    (rrest brest : List Row)
    (h : calculate_wacc t env sd ed rfo mrpo cso = Except.ok m) :
    (m.equity_weight + m.debt_weight = 1 ∧
      |m.equity_weight + m.debt_weight - 1| < 1/1000000000) ∧
    (env.ratioFetch = Except.ok (r0 :: rrest) →
      env.balanceFetch = Except.ok (b0 :: brest) →
      0 ≤ resolvedMarketCap r0 → 0 ≤ resolvedTotalDebt b0 →
      0 ≤ m.equity_weight ∧ m.equity_weight ≤ 1 ∧
        0 ≤ m.debt_weight ∧ m.debt_weight ≤ 1) := by
  obtain ⟨r0', rrest', b0', brest', bm, hr, hb, hmc, htv, hbeta, hm⟩ :=
    calculate_wacc_ok_inv h
  subst hm
  have hsum := mkWacc_weights_sum t (orDefault rfo VIETNAM_RISK_FREE_RATE)
    (orDefault mrpo VIETNAM_MARKET_RISK_PREMIUM)
    (orDefault cso DEFAULT_CREDIT_SPREAD)
    (resolvedMarketCap r0') (resolvedTotalDebt b0') bm.beta htv
  refine ⟨⟨hsum, by rw [hsum]; norm_num⟩, ?_⟩
  intro hr2 hb2 hmc0 htd0
  rw [hr2] at hr
  rw [hb2] at hb
  simp only [Except.ok.injEq, List.cons.injEq] at hr hb
  obtain ⟨hr1, -⟩ := hr
  obtain ⟨hb1, -⟩ := hb
  subst hr1
  subst hb1
  have hpos : 0 < resolvedMarketCap r0 + resolvedTotalDebt b0 := by
    rcases lt_or_eq_of_le (add_nonneg hmc0 htd0) with hlt | heq
    · exact hlt
    · exact absurd heq.symm htv
  refine ⟨div_nonneg hmc0 hpos.le, ?_, div_nonneg htd0 hpos.le, ?_⟩
  · exact (div_le_one hpos).mpr (le_add_of_nonneg_right htd0)
  · exact (div_le_one hpos).mpr (le_add_of_nonneg_left hmc0)

/-- Witness for the amended C4 at `envC3` (nonnegative market cap 75 and
debt 25): weights 3/4 and 1/4, sum 1, both within [0, 1]. -/
theorem claim_C4_witness :
    (exWaccM.equity_weight + exWaccM.debt_weight = 1 ∧
      |exWaccM.equity_weight + exWaccM.debt_weight - 1| < 1/1000000000) ∧
    (0 ≤ exWaccM.equity_weight ∧ exWaccM.equity_weight ≤ 1 ∧
      0 ≤ exWaccM.debt_weight ∧ exWaccM.debt_weight ≤ 1) := by
  obtain ⟨h1, h2⟩ := claim_C4_amended "FPT" "2023-01-01" "2023-12-31" envC3
    none none none exWaccM exRatioRow exBalanceRow [] [] exWaccC3_ok
  exact ⟨h1, h2 rfl rfl (by rw [exMc75]; norm_num) (by rw [exTd25]; norm_num)⟩

/-- Claim C5 fails as stated: a provider fetch failure and an
insufficient-data failure surface with the SAME outer exception kind — both
are re-raised as the generic wrapper `Exception` — so a caller cannot
distinguish the two failure kinds by error type. -/
theorem claim_C5_counterexample :
    errKind (calculate_beta "VCB"
        (Except.error (PyErr.providerError "connection refused"))
        (Except.ok exMarket31) "2023-01-01" "2023-12-31") =
      errKind (calculate_beta "VCB" (Except.ok exStock5) (Except.ok exStock5)
        "2023-01-01" "2023-01-05") ∧
    errKind (calculate_beta "VCB"
        (Except.error (PyErr.providerError "connection refused"))
        (Except.ok exMarket31) "2023-01-01" "2023-12-31") = "Exception" := by
  constructor <;> decide

/-- Claim C5 amended: both failure kinds are wrapped in one generic
exception carrying the original error as its cause: a fetch failure keeps
the provider error as cause, an insufficient-data failure has a `ValueError`
cause; callers distinguish them only through the cause (or message), never
through the outer type. -/
theorem claim_C5_amended (t sd ed : String) (e : PyErr)
    (mf : Except PyErr PriceSeries) (stock market : PriceSeries)
    (hn : (returnRows (alignSeries stock market)).length < 30) :
    calculate_beta t (Except.error e) mf sd ed =
      Except.error (PyErr.exception ("Beta calculation failed for " ++ t) e) ∧
    (∃ msg, calculate_beta t (Except.ok stock) (Except.ok market) sd ed =
      Except.error (PyErr.exception ("Beta calculation failed for " ++ t)
        (PyErr.valueError msg))) := by
  constructor
  · exact calculate_beta_err_wrap rfl
  · exact calculate_beta_insufficient t sd ed stock market hn

/-- Witness for the amended C5 at a failed fetch and at the 30-date series. -/
theorem claim_C5_witness :
    calculate_beta "VCB" (Except.error (PyErr.providerError "connection refused"))
        (Except.ok exMarket31) "2023-01-01" "2023-12-31" =
      Except.error (PyErr.exception ("Beta calculation failed for " ++ "VCB")
        (PyErr.providerError "connection refused")) ∧
    (∃ msg, calculate_beta "VCB" (Except.ok exStock30) (Except.ok exMarket30)
        "2023-01-01" "2023-12-31" =
      Except.error (PyErr.exception ("Beta calculation failed for " ++ "VCB")
        (PyErr.valueError msg))) :=
  claim_C5_amended "VCB" "2023-01-01" "2023-12-31"
    (PyErr.providerError "connection refused") (Except.ok exMarket31)
    exStock30 exMarket30 (by decide)

/-- Claim C6 fails as stated: an explicitly provided override of 0.0 for the
risk-free rate is NOT used — Python's `x or default` treats 0.0 as unset, so
the default 0.035 = 7/200 is used instead. -/
theorem claim_C6_counterexample :
    calculate_wacc "FPT" envC3 "2023-01-01" "2023-12-31" (some 0) none none =
      Except.ok exWaccM ∧
    exWaccM.risk_free_rate = 7/200 ∧ (7/200 : ℚ) ≠ 0 := by
  refine ⟨?_, rfl, by norm_num⟩
  rw [calculate_wacc_ok_iff,
    calculateWaccCore_ok "FPT" "2023-01-01" "2023-12-31" envC3 (some 0) none
      none exRatioRow exBalanceRow [] [] exBetaM rfl rfl
      (by rw [exMc75]; norm_num) (by rw [exMc75, exTd25]; norm_num) exBeta_ok,
    exMc75, exTd25]
  have hbv : exBetaM.beta = 5/4 := rfl
  rw [hbv, exWaccM]
  norm_num [orDefault, VIETNAM_RISK_FREE_RATE, VIETNAM_MARKET_RISK_PREMIUM,
    DEFAULT_CREDIT_SPREAD]

/-- Claim C6 amended: the computation uses the override exactly when it is
provided AND nonzero (Python `or` semantics, `orDefault`); a provided 0.0,
like an absent override, falls back to the process-wide default. -/
theorem claim_C6_amended (t sd ed : String) (env : WaccEnv)
    (rfo mrpo cso : Option ℚ) (m : WACCMetrics)
    (h : calculate_wacc t env sd ed rfo mrpo cso = Except.ok m) :
    m.risk_free_rate = orDefault rfo VIETNAM_RISK_FREE_RATE ∧
    m.market_risk_premium = orDefault mrpo VIETNAM_MARKET_RISK_PREMIUM ∧
    m.cost_of_debt = (orDefault rfo VIETNAM_RISK_FREE_RATE +
        orDefault cso DEFAULT_CREDIT_SPREAD) *
      (1 - VIETNAM_CORPORATE_TAX_RATE) ∧
    (∀ x : ℚ, x ≠ 0 → ∀ d, orDefault (some x) d = x) ∧
    (∀ d : ℚ, orDefault none d = d) ∧
    (∀ d : ℚ, orDefault (some 0) d = d) := by
  obtain ⟨r0, rrest, b0, brest, bm, hr, hb, hmc, htv, hbeta, hm⟩ :=
    calculate_wacc_ok_inv h
  subst hm
  refine ⟨rfl, rfl, rfl, ?_, fun d => rfl, fun d => by simp [orDefault]⟩
  intro x hx d
  simp [orDefault, hx]

/-- Witness for the amended C6 at `envC3` with no overrides. -/
theorem claim_C6_witness :
    exWaccM.risk_free_rate = orDefault none VIETNAM_RISK_FREE_RATE ∧
    exWaccM.market_risk_premium = orDefault none VIETNAM_MARKET_RISK_PREMIUM ∧
    exWaccM.cost_of_debt = (orDefault none VIETNAM_RISK_FREE_RATE +
        orDefault none DEFAULT_CREDIT_SPREAD) *
      (1 - VIETNAM_CORPORATE_TAX_RATE) ∧
    (∀ x : ℚ, x ≠ 0 → ∀ d, orDefault (some x) d = x) ∧
    (∀ d : ℚ, orDefault none d = d) ∧
    (∀ d : ℚ, orDefault (some 0) d = d) :=
  claim_C6_amended "FPT" "2023-01-01" "2023-12-31" envC3 none none none
    exWaccM exWaccC3_ok

/-- Claim C7 fails as stated: the code only rejects a firm value of exactly
zero; with market cap 50 and reported borrowings -100 the total value is
-50 < 0 and `calculate_wacc` returns it instead of failing. -/
theorem claim_C7_counterexample :
    calculate_wacc "FPT" envC7 "2023-01-01" "2023-12-31" none none none =
      Except.ok (mkWacc "FPT" (7/200) (1/20) (1/40) 50 (-100) (5/4)) ∧
    (mkWacc "FPT" (7/200) (1/20) (1/40) 50 (-100) (5/4)).total_value = -50 ∧
    (mkWacc "FPT" (7/200) (1/20) (1/40) 50 (-100) (5/4)).total_value < 0 := by
  refine ⟨exWaccC7_ok, ?_, ?_⟩ <;> norm_num [mkWacc]

/-- Claim C7 amended: `calculate_wacc` fails with the firm-value error
exactly when total_value = market cap + total debt is zero; every returned
result has total_value equal to that sum and nonzero — but a negative
total_value (possible only with negative reported borrowings) is returned,
not rejected. -/
theorem claim_C7_amended (t sd ed : String) (env : WaccEnv)
    (rfo mrpo cso : Option ℚ) (r0 b0 : Row) (rrest brest : List Row)
    (hr : env.ratioFetch = Except.ok (r0 :: rrest))
    (hb : env.balanceFetch = Except.ok (b0 :: brest))
    (hmc : ¬ resolvedMarketCap r0 = 0) :
    (resolvedMarketCap r0 + resolvedTotalDebt b0 = 0 →
      calculate_wacc t env sd ed rfo mrpo cso =
        Except.error (PyErr.exception ("WACC calculation failed for " ++ t)
          (PyErr.valueError ("Cannot determine firm value for " ++ t)))) ∧
    (∀ m, calculate_wacc t env sd ed rfo mrpo cso = Except.ok m →
      m.total_value = resolvedMarketCap r0 + resolvedTotalDebt b0 ∧
      ¬ m.total_value = 0) := by
  constructor
  · intro htv
    exact calculate_wacc_err_wrap
      (calculateWaccCore_firmValueZero t sd ed env rfo mrpo cso r0 b0
        rrest brest hr hb hmc htv)
  · intro m hm
    obtain ⟨r0', rrest', b0', brest', bm, hr', hb', hmc', htv', hbeta', hmeq⟩ :=
      calculate_wacc_ok_inv hm
    rw [hr] at hr'
    rw [hb] at hb'
    simp only [Except.ok.injEq, List.cons.injEq] at hr' hb'
    subst hmeq
    rw [← hr'.1, ← hb'.1] at htv' ⊢
    exact ⟨rfl, htv'⟩

/-- Witness for the amended C7: with market cap 50 and borrowings -50 the
firm value is exactly 0 and the computation fails with the firm-value error. -/
theorem claim_C7_witness :
    calculate_wacc "FPT" envC7zero "2023-01-01" "2023-12-31" none none none =
      Except.error (PyErr.exception ("WACC calculation failed for " ++ "FPT")
        (PyErr.valueError ("Cannot determine firm value for " ++ "FPT"))) :=
  (claim_C7_amended "FPT" "2023-01-01" "2023-12-31" envC7zero none none none
    ratioRow50 [("short_term_borrowings", FieldVal.num (-50))] [] [] rfl rfl
    (by rw [exMc50]; norm_num)).1
    (by rw [exMc50, exTdNeg50]; norm_num)

/-- Claim C8 fails as stated: on the 31-date example the stock return series
is `sretsLit`, whose sample (n-1) variance times 252 is 212625/928, while
the returned squared volatility is 14175/64 = population variance times 252;
the squares differ, hence the volatility is not the sample standard
deviation times sqrt(252). -/
theorem claim_C8_counterexample :
    calculate_beta "FPT" (Except.ok exStock31) (Except.ok exMarket31)
        "2023-01-01" "2023-12-31" = Except.ok exBetaM ∧
    (returnRows (alignSeries exStock31 exMarket31)).map ReturnRow.stock_ret =
      sretsLit ∧
    exBetaM.volatility_stock_sq ≠ specSampleVariance sretsLit * 252 := by
  refine ⟨exBeta_ok, by rw [exAlign, exReturns, exSrets], ?_⟩
  have hsq : ((sretsLit.map fun x => (x - listMean sretsLit) ^ 2).sum) =
      3375/128 := by
    have := exSsTot
    rw [ssTot] at this
    exact this
  have hlen : (sretsLit.length : ℚ) = 30 := by norm_num [sretsLit]
  have hv : specSampleVariance sretsLit = 3375/3712 := by
    rw [specSampleVariance, hsq, hlen]
    norm_num
  rw [hv]
  have hvol : exBetaM.volatility_stock_sq = 14175/64 := rfl
  rw [hvol]
  norm_num

/-- Claim C8 amended: in every successful `calculate_beta` result the
squared volatilities equal the POPULATION variance (numpy `np.std` default,
`ddof = 0`) of the daily return series times 252 — i.e. the volatility is
the population standard deviation times sqrt(252), not the sample one. -/
theorem claim_C8_amended (t sd ed : String) (stock market : PriceSeries)
    (bm : BetaMetrics)
    (h : calculate_beta t (Except.ok stock) (Except.ok market) sd ed =
      Except.ok bm) :
    bm.volatility_stock_sq =
      listPopVar ((returnRows (alignSeries stock market)).map
        ReturnRow.stock_ret) * 252 ∧
    bm.volatility_market_sq =
      listPopVar ((returnRows (alignSeries stock market)).map
        ReturnRow.market_ret) * 252 := by
  rw [calculate_beta_ok_iff] at h
  by_cases h1 : (alignSeries stock market).length < 30
  · simp [calculateBetaCore, h1] at h
  by_cases h2 : (returnRows (alignSeries stock market)).length < 30
  · simp [calculateBetaCore, h1, h2] at h
  rw [calculateBetaCore_ok t sd ed stock market h1 h2] at h
  simp only [Except.ok.injEq] at h
  subst h
  exact ⟨rfl, rfl⟩

/-- Witness for the amended C8 at the running example. -/
theorem claim_C8_witness :
    exBetaM.volatility_stock_sq =
      listPopVar ((returnRows (alignSeries exStock31 exMarket31)).map
        ReturnRow.stock_ret) * 252 ∧
    exBetaM.volatility_market_sq =
      listPopVar ((returnRows (alignSeries exStock31 exMarket31)).map
        ReturnRow.market_ret) * 252 :=
  claim_C8_amended "FPT" "2023-01-01" "2023-12-31" exStock31 exMarket31
    exBetaM exBeta_ok

/-- Claim C9: every successful `calculate_valuation_suite` run returns one
record per reporting-period row of the ratio feed, and every record carries
the identical beta and WACC figures of the single beta/WACC computation for
the requested window, with enterprise_value = market_value_equity +
market_value_debt of that single WACC result. -/
theorem claim_C9 (t sd ed : String) (env : WaccEnv)
    (lst : List ValuationMetrics) (rows : List Row)
    (bm : BetaMetrics) (wm : WACCMetrics)
    (h : calculate_valuation_suite t env sd ed = Except.ok lst)
    (hrows : env.ratioFetch = Except.ok rows)
    (hbm : calculate_beta t env.stockFetch env.marketFetch sd ed =
      Except.ok bm)
    (hwm : calculate_wacc t env sd ed none none none = Except.ok wm) :
    lst.length = rows.length ∧
    ∀ v ∈ lst,
      v.beta = bm.beta ∧ v.correlation_sq = bm.correlation_sq ∧
      v.r_squared = bm.r_squared ∧
      v.stock_volatility_sq = bm.volatility_stock_sq ∧
      v.market_volatility_sq = bm.volatility_market_sq ∧
      v.wacc = wm.wacc ∧ v.cost_of_equity = wm.cost_of_equity ∧
      v.cost_of_debt = wm.cost_of_debt ∧
      v.equity_weight = wm.equity_weight ∧ v.debt_weight = wm.debt_weight ∧
      v.market_cap = wm.market_value_equity ∧
      v.total_debt = wm.market_value_debt ∧
      v.enterprise_value = wm.market_value_equity + wm.market_value_debt := by
  rw [calculate_valuation_suite_ok_iff,
    suite_core_ok t sd ed env bm wm rows hbm hwm hrows] at h
  obtain ⟨hlen, hmem⟩ := suiteRows_ok_inv h
  refine ⟨hlen, ?_⟩
  intro v hv
  obtain ⟨yr, row, hrow, hveq⟩ := hmem v hv
  subst hveq
  exact ⟨rfl, rfl, rfl, rfl, rfl, rfl, rfl, rfl, rfl, rfl, rfl, rfl, rfl⟩

/-- Witness for C9 on `envC9` (two reporting periods). -/
theorem claim_C9_witness :
    ([mkValuationRecord "FPT" "2023-01-01" "2023-12-31" exBetaM exWaccM
        (some 2023) c9Row1,
      mkValuationRecord "FPT" "2023-01-01" "2023-12-31" exBetaM exWaccM
        (some 2022) c9Row2] : List ValuationMetrics).length =
      ([c9Row1, c9Row2] : List Row).length ∧
    ∀ v ∈ ([mkValuationRecord "FPT" "2023-01-01" "2023-12-31" exBetaM exWaccM
        (some 2023) c9Row1,
      mkValuationRecord "FPT" "2023-01-01" "2023-12-31" exBetaM exWaccM
        (some 2022) c9Row2] : List ValuationMetrics),
      v.beta = exBetaM.beta ∧ v.correlation_sq = exBetaM.correlation_sq ∧
      v.r_squared = exBetaM.r_squared ∧
      v.stock_volatility_sq = exBetaM.volatility_stock_sq ∧
      v.market_volatility_sq = exBetaM.volatility_market_sq ∧
      v.wacc = exWaccM.wacc ∧ v.cost_of_equity = exWaccM.cost_of_equity ∧
      v.cost_of_debt = exWaccM.cost_of_debt ∧
      v.equity_weight = exWaccM.equity_weight ∧
      v.debt_weight = exWaccM.debt_weight ∧
      v.market_cap = exWaccM.market_value_equity ∧
      v.total_debt = exWaccM.market_value_debt ∧
      v.enterprise_value =
        exWaccM.market_value_equity + exWaccM.market_value_debt :=
  claim_C9 "FPT" "2023-01-01" "2023-12-31" envC9 _ [c9Row1, c9Row2]
    exBetaM exWaccM exSuiteC9_ok rfl exBeta_ok exWaccC9_ok

/-- Claim C10: when the latest balance-sheet row has no usable
short_term_borrowings / long_term_borrowings values (missing, null, NaN or
non-numeric), `calculate_wacc` does not fail: both components read as 0, so
total debt is 0, equity_weight = 1, debt_weight = 0 and wacc equals
cost_of_equity. -/
theorem claim_C10 (t sd ed : String) (env : WaccEnv) (r0 b0 : Row)
    (rrest brest : List Row) (bm : BetaMetrics)
    (hr : env.ratioFetch = Except.ok (r0 :: rrest))
    (hb : env.balanceFetch = Except.ok (b0 :: brest))
    (hshort : invalidField (List.lookup "short_term_borrowings" b0))
    (hlong : invalidField (List.lookup "long_term_borrowings" b0))
    (hmc : ¬ resolvedMarketCap r0 = 0)
    (hbeta : calculate_beta t env.stockFetch env.marketFetch sd ed =
      Except.ok bm) :
    calculate_wacc t env sd ed none none none =
      Except.ok (mkWacc t VIETNAM_RISK_FREE_RATE VIETNAM_MARKET_RISK_PREMIUM
        DEFAULT_CREDIT_SPREAD (resolvedMarketCap r0) 0 bm.beta) ∧
    ∀ m, calculate_wacc t env sd ed none none none = Except.ok m →
      m.equity_weight = 1 ∧ m.debt_weight = 0 ∧ m.wacc = m.cost_of_equity := by
  have htd : resolvedTotalDebt b0 = 0 := by
    rw [resolvedTotalDebt, safeGetFloat_invalid hshort,
      safeGetFloat_invalid hlong, add_zero]
  have htv : ¬ resolvedMarketCap r0 + resolvedTotalDebt b0 = 0 := by
    rw [htd, add_zero]
    exact hmc
  have hok : calculate_wacc t env sd ed none none none =
      Except.ok (mkWacc t VIETNAM_RISK_FREE_RATE VIETNAM_MARKET_RISK_PREMIUM
        DEFAULT_CREDIT_SPREAD (resolvedMarketCap r0) 0 bm.beta) := by
    rw [calculate_wacc_ok_iff,
      calculateWaccCore_ok t sd ed env none none none r0 b0 rrest brest bm
        hr hb hmc htv hbeta, htd]
    rfl
  refine ⟨hok, ?_⟩
  intro m hm
  rw [hok] at hm
  simp only [Except.ok.injEq] at hm
  subst hm
  have h1 : resolvedMarketCap r0 / (resolvedMarketCap r0 + 0) = 1 := by
    rw [add_zero]
    exact div_self hmc
  refine ⟨h1, zero_div _, ?_⟩
  show resolvedMarketCap r0 / (resolvedMarketCap r0 + 0) *
      (VIETNAM_RISK_FREE_RATE + bm.beta * VIETNAM_MARKET_RISK_PREMIUM) +
    0 / (resolvedMarketCap r0 + 0) *
      ((VIETNAM_RISK_FREE_RATE + DEFAULT_CREDIT_SPREAD) *
        (1 - VIETNAM_CORPORATE_TAX_RATE)) =
    VIETNAM_RISK_FREE_RATE + bm.beta * VIETNAM_MARKET_RISK_PREMIUM
  rw [h1, zero_div, one_mul, zero_mul, add_zero]

/-- Witness for C10 at `envC10` (non-numeric short-term borrowings, missing
long-term borrowings, market cap 75). -/
theorem claim_C10_witness :
    calculate_wacc "FPT" envC10 "2023-01-01" "2023-12-31" none none none =
      Except.ok (mkWacc "FPT" VIETNAM_RISK_FREE_RATE
        VIETNAM_MARKET_RISK_PREMIUM DEFAULT_CREDIT_SPREAD
        (resolvedMarketCap exRatioRow) 0 exBetaM.beta) ∧
    ∀ m, calculate_wacc "FPT" envC10 "2023-01-01" "2023-12-31"
        none none none = Except.ok m →
      m.equity_weight = 1 ∧ m.debt_weight = 0 ∧ m.wacc = m.cost_of_equity :=
  claim_C10 "FPT" "2023-01-01" "2023-12-31" envC10 exRatioRow
    invalidBalanceRow [] [] exBetaM rfl rfl trivial trivial
    (by rw [exMc75]; norm_num) exBeta_ok

end RichSlow
